import Mathlib

/-!
Verification of the telematics-firmware core against its specification.

The C sources are shallowly embedded: machine integers become `Nat` with
explicit wraparound (`% 2^32`) where the C type could wrap, C floats become
exact rationals (`ℚ`), out-parameters become returned values, fallible calls
return a status code together with their outputs, and the module-level
mutable state of each driver becomes an explicit state record threaded
through the functions.
-/

namespace Telematics

set_option maxRecDepth 100000

/-- `StatusCode_t` from include/telemetry_types.h. -/
inductive StatusCode where
  | STATUS_OK
  | STATUS_ERROR
  | STATUS_TIMEOUT
  | STATUS_BUSY
  | STATUS_INVALID_PARAM
  | STATUS_NO_DATA
  | STATUS_BUFFER_FULL
  | STATUS_NOT_INITIALIZED
  | STATUS_HARDWARE_ERROR
deriving DecidableEq, Repr

open StatusCode

/-- Wrapping 32-bit addition, the effect of `uint32_t` `+`/`fetch_add`. -/
def add32 (a b : Nat) : Nat := (a + b) % 4294967296

/-- Wrapping 32-bit subtraction, the effect of `uint32_t` `-`/`fetch_sub`
on operands already reduced below `2^32`. -/
def sub32 (a b : Nat) : Nat := (a + 4294967296 - b % 4294967296) % 4294967296

theorem sub32_eq (a b : Nat) (hb : b ≤ a) (ha : a < 4294967296) :
    sub32 a b = a - b := by
  unfold sub32
  have hb' : b % 4294967296 = b := Nat.mod_eq_of_lt (lt_of_le_of_lt hb ha)
  rw [hb']
  omega

theorem add32_eq (a b : Nat) (h : a + b < 4294967296) : add32 a b = a + b :=
  Nat.mod_eq_of_lt h

/-- `TelemetryRecord_t` from include/telemetry_types.h (32-byte packed
struct, trailing `crc16` integrity code).  C `float` fields are modelled as
exact rationals; every transfer of a record in the C code is a whole-struct
`memcpy`, so equality of this structure is byte-for-byte equality of the
record. -/
structure TelemetryRecord where
  timestamp : Nat
  speed : ℚ
  battery_voltage : ℚ
  latitude : ℚ
  longitude : ℚ
  altitude : ℚ
  gps_satellites : Nat
  gps_fix_quality : Nat
  flags : Nat
  reserved : Nat
  crc16 : Nat
deriving DecidableEq

/-- The all-zero record produced by `memset(buffer, 0, ...)`. -/
def zeroRecord : TelemetryRecord :=
  { timestamp := 0, speed := 0, battery_voltage := 0, latitude := 0,
    longitude := 0, altitude := 0, gps_satellites := 0, gps_fix_quality := 0,
    flags := 0, reserved := 0, crc16 := 0 }

/-- `TELEMETRY_BUFFER_SIZE` from include/config.h. -/
def TELEMETRY_BUFFER_SIZE : Nat := 2048

/-- `CircularBuffer_t`: the record storage array is modelled as a total
function from indices (only indices `< TELEMETRY_BUFFER_SIZE` are ever
read or written, all index arithmetic being taken modulo the capacity). -/
structure CircularBuffer where
  records : Nat → TelemetryRecord
  write_index : Nat
  read_index : Nat
  count : Nat
  overflow_count : Nat
  initialized : Bool

/-- `CircularBuffer_Init` (src/middleware/circular_buffer.c).  The NULL
check is not modelled: Lean references are always valid. -/
def CircularBuffer_Init : CircularBuffer :=
  { records := fun _ => zeroRecord
    write_index := 0
    read_index := 0
    count := 0
    overflow_count := 0
    initialized := true }

/-- `CircularBuffer_Push` (src/middleware/circular_buffer.c, lines 42-80).
Returns the status code and the buffer state after the call. -/
def CircularBuffer_Push (buffer : CircularBuffer) (record : TelemetryRecord) :
    StatusCode × CircularBuffer :=
  if buffer.initialized = false then (STATUS_NOT_INITIALIZED, buffer)
  else
    let b1 :=
      if buffer.count ≥ TELEMETRY_BUFFER_SIZE then
        { buffer with
            overflow_count := add32 buffer.overflow_count 1
            read_index := (buffer.read_index + 1) % TELEMETRY_BUFFER_SIZE
            count := sub32 buffer.count 1 }
      else buffer
    let write_idx := b1.write_index
    (STATUS_OK,
      { b1 with
          records := fun i => if i = write_idx then record else b1.records i
          write_index := (write_idx + 1) % TELEMETRY_BUFFER_SIZE
          count := add32 b1.count 1 })

/-- `CircularBuffer_Pop` (src/middleware/circular_buffer.c, lines 82-109).
The out-parameter becomes an `Option`: `some r` exactly when the C code
writes `*record`. -/
def CircularBuffer_Pop (buffer : CircularBuffer) :
    StatusCode × Option TelemetryRecord × CircularBuffer :=
  if buffer.initialized = false then (STATUS_NOT_INITIALIZED, none, buffer)
  else if buffer.count = 0 then (STATUS_NO_DATA, none, buffer)
  else
    (STATUS_OK, some (buffer.records buffer.read_index),
      { buffer with
          read_index := (buffer.read_index + 1) % TELEMETRY_BUFFER_SIZE
          count := sub32 buffer.count 1 })

/-- `CircularBuffer_Peek` (src/middleware/circular_buffer.c, lines 111-134).
The buffer is passed by `const` pointer and never stored to; the returned
state is the input state, which is the translation of that absence of
stores. -/
def CircularBuffer_Peek (buffer : CircularBuffer) (offset : Nat) :
    StatusCode × Option TelemetryRecord × CircularBuffer :=
  if buffer.initialized = false then (STATUS_NOT_INITIALIZED, none, buffer)
  else if offset ≥ buffer.count then (STATUS_NO_DATA, none, buffer)
  else
    (STATUS_OK,
      some (buffer.records ((buffer.read_index + offset) % TELEMETRY_BUFFER_SIZE)),
      buffer)

/-- `CircularBuffer_Clear` (src/middleware/circular_buffer.c). -/
def CircularBuffer_Clear (buffer : CircularBuffer) : StatusCode × CircularBuffer :=
  if buffer.initialized = false then (STATUS_NOT_INITIALIZED, buffer)
  else
    (STATUS_OK, { buffer with write_index := 0, read_index := 0, count := 0 })

/-- Loop body of `CircularBuffer_PopBatch`: pop until `max_count` records
are copied or a pop fails, collecting the copied records in order. -/
def popBatchLoop : CircularBuffer → Nat → List TelemetryRecord × CircularBuffer
  | b, 0 => ([], b)
  | b, n + 1 =>
    match CircularBuffer_Pop b with
    | (STATUS_OK, some r, b') =>
      let rest := popBatchLoop b' n
      (r :: rest.1, rest.2)
    | _ => ([], b)

/-- `CircularBuffer_PopBatch` (src/middleware/circular_buffer.c, lines
195-213): returns the number of records actually copied, the records, and
the resulting state. -/
def CircularBuffer_PopBatch (buffer : CircularBuffer) (max_count : Nat) :
    Nat × List TelemetryRecord × CircularBuffer :=
  if max_count = 0 then (0, [], buffer)
  else if buffer.initialized = false then (0, [], buffer)
  else
    let res := popBatchLoop buffer max_count
    (res.1.length, res.1, res.2)

/-- The live content of the buffer, oldest first: the records at
`read_index`, `read_index + 1`, ..., `read_index + count - 1` (mod capacity). -/
def bufContents (b : CircularBuffer) : List TelemetryRecord :=
  (List.range b.count).map
    (fun i => b.records ((b.read_index + i) % TELEMETRY_BUFFER_SIZE))

/-- The state invariant of an initialized buffer: count within capacity,
read index reduced, and the write index sitting `count` slots past the
read index. -/
def BufInv (b : CircularBuffer) : Prop :=
  b.count ≤ TELEMETRY_BUFFER_SIZE ∧
  b.read_index < TELEMETRY_BUFFER_SIZE ∧
  b.write_index = (b.read_index + b.count) % TELEMETRY_BUFFER_SIZE ∧
  b.initialized = true

instance (b : CircularBuffer) : Decidable (BufInv b) := by
  unfold BufInv; infer_instance

theorem bufInv_init : BufInv CircularBuffer_Init := by decide

theorem bufContents_length (b : CircularBuffer) :
    (bufContents b).length = b.count := by
  simp [bufContents]

theorem bufContents_succ (b : CircularBuffer) (k : Nat) (h : b.count = k + 1)
    (hr : b.read_index < TELEMETRY_BUFFER_SIZE) :
    bufContents b = b.records b.read_index ::
      (List.range k).map
        (fun i => b.records ((b.read_index + (i + 1)) % TELEMETRY_BUFFER_SIZE)) := by
  unfold bufContents
  rw [h, List.range_succ_eq_map, List.map_cons, List.map_map]
  have h0 : (b.read_index + 0) % TELEMETRY_BUFFER_SIZE = b.read_index := by
    simp only [TELEMETRY_BUFFER_SIZE] at *
    omega
  rw [h0]
  rfl

/-- The state produced by a successful `CircularBuffer_Pop`. -/
def poppedState (b : CircularBuffer) : CircularBuffer :=
  { b with read_index := (b.read_index + 1) % TELEMETRY_BUFFER_SIZE
           count := b.count - 1 }

theorem pop_eq_ok (b : CircularBuffer) (hinit : b.initialized = true)
    (hc : 0 < b.count) (hle : b.count ≤ TELEMETRY_BUFFER_SIZE) :
    CircularBuffer_Pop b =
      (STATUS_OK, some (b.records b.read_index), poppedState b) := by
  unfold CircularBuffer_Pop poppedState
  rw [hinit]
  have h0 : ¬ b.count = 0 := by omega
  have hs : sub32 b.count 1 = b.count - 1 := by
    apply sub32_eq _ _ hc
    simp only [TELEMETRY_BUFFER_SIZE] at hle
    omega
  simp [h0, hs]

theorem bufInv_popped (b : CircularBuffer) (hInv : BufInv b) (hc : 0 < b.count) :
    BufInv (poppedState b) := by
  obtain ⟨h1, h2, h3, h4⟩ := hInv
  refine ⟨by simp [poppedState]; omega, ?_, ?_, h4⟩
  · simp only [poppedState, TELEMETRY_BUFFER_SIZE] at *
    omega
  · simp only [poppedState, TELEMETRY_BUFFER_SIZE] at *
    omega

theorem bufContents_popped (b : CircularBuffer) (hInv : BufInv b) (hc : 0 < b.count) :
    bufContents b = b.records b.read_index :: bufContents (poppedState b) := by
  obtain ⟨h1, h2, h3, h4⟩ := hInv
  obtain ⟨k, hk⟩ : ∃ k, b.count = k + 1 := ⟨b.count - 1, by omega⟩
  rw [bufContents_succ b k hk h2]
  congr 1
  unfold bufContents poppedState
  rw [hk]
  simp only [Nat.add_sub_cancel]
  apply List.map_congr_left
  intro i _
  congr 1
  simp only [TELEMETRY_BUFFER_SIZE] at *
  omega

/-- The state produced by `CircularBuffer_Push` on a non-full buffer. -/
def pushedNotFull (b : CircularBuffer) (r : TelemetryRecord) : CircularBuffer :=
  { b with records := fun i => if i = b.write_index then r else b.records i
           write_index := (b.write_index + 1) % TELEMETRY_BUFFER_SIZE
           count := add32 b.count 1 }

/-- The state produced by `CircularBuffer_Push` on a full buffer (eviction
of the oldest record, then the write). -/
def pushedFull (b : CircularBuffer) (r : TelemetryRecord) : CircularBuffer :=
  { b with records := fun i => if i = b.write_index then r else b.records i
           write_index := (b.write_index + 1) % TELEMETRY_BUFFER_SIZE
           read_index := (b.read_index + 1) % TELEMETRY_BUFFER_SIZE
           count := add32 (sub32 b.count 1) 1
           overflow_count := add32 b.overflow_count 1 }

theorem push_eq_not_full (b : CircularBuffer) (r : TelemetryRecord)
    (hinit : b.initialized = true) (hc : b.count < TELEMETRY_BUFFER_SIZE) :
    CircularBuffer_Push b r = (STATUS_OK, pushedNotFull b r) := by
  unfold CircularBuffer_Push pushedNotFull
  have hnf : ¬ b.count ≥ TELEMETRY_BUFFER_SIZE := by omega
  simp [hinit, hnf]

theorem push_eq_full (b : CircularBuffer) (r : TelemetryRecord)
    (hinit : b.initialized = true) (hc : b.count ≥ TELEMETRY_BUFFER_SIZE) :
    CircularBuffer_Push b r = (STATUS_OK, pushedFull b r) := by
  unfold CircularBuffer_Push pushedFull
  simp [hinit, hc]

theorem pushedNotFull_count (b : CircularBuffer) (r : TelemetryRecord)
    (hc : b.count < TELEMETRY_BUFFER_SIZE) :
    (pushedNotFull b r).count = b.count + 1 := by
  apply add32_eq
  simp only [TELEMETRY_BUFFER_SIZE] at hc
  omega

theorem bufInv_pushedNotFull (b : CircularBuffer) (r : TelemetryRecord)
    (hInv : BufInv b) (hc : b.count < TELEMETRY_BUFFER_SIZE) :
    BufInv (pushedNotFull b r) := by
  obtain ⟨h1, h2, h3, h4⟩ := hInv
  refine ⟨?_, ?_, ?_, h4⟩ <;>
    simp only [pushedNotFull, add32, TELEMETRY_BUFFER_SIZE] at * <;> omega

theorem bufContents_pushedNotFull (b : CircularBuffer) (r : TelemetryRecord)
    (hInv : BufInv b) (hc : b.count < TELEMETRY_BUFFER_SIZE) :
    bufContents (pushedNotFull b r) = bufContents b ++ [r] := by
  obtain ⟨h1, h2, h3, h4⟩ := hInv
  unfold bufContents
  rw [pushedNotFull_count b r hc]
  rw [List.range_succ, List.map_append, List.map_singleton]
  congr 1
  · apply List.map_congr_left
    intro i hi
    simp only [List.mem_range] at hi
    have hne : (b.read_index + i) % TELEMETRY_BUFFER_SIZE ≠ b.write_index := by
      rw [h3]
      simp only [TELEMETRY_BUFFER_SIZE] at *
      omega
    simp only [pushedNotFull]
    simp [hne]
  · have heq : (b.read_index + b.count) % TELEMETRY_BUFFER_SIZE = b.write_index :=
      h3.symm
    simp only [pushedNotFull]
    simp [heq]

theorem pushedFull_count (b : CircularBuffer) (r : TelemetryRecord)
    (h1 : b.count = TELEMETRY_BUFFER_SIZE) :
    (pushedFull b r).count = TELEMETRY_BUFFER_SIZE := by
  simp only [pushedFull, add32, sub32, TELEMETRY_BUFFER_SIZE] at *
  omega

theorem bufInv_pushedFull (b : CircularBuffer) (r : TelemetryRecord)
    (hInv : BufInv b) (hc : b.count = TELEMETRY_BUFFER_SIZE) :
    BufInv (pushedFull b r) := by
  obtain ⟨h1, h2, h3, h4⟩ := hInv
  refine ⟨?_, ?_, ?_, h4⟩ <;>
    simp only [pushedFull, add32, sub32, TELEMETRY_BUFFER_SIZE] at * <;> omega

theorem bufContents_pushedFull (b : CircularBuffer) (r : TelemetryRecord)
    (hInv : BufInv b) (hc : b.count = TELEMETRY_BUFFER_SIZE) :
    bufContents (pushedFull b r) = (bufContents b).tail ++ [r] := by
  obtain ⟨h1, h2, h3, h4⟩ := hInv
  have hwr : b.write_index = b.read_index := by
    rw [h3, hc]
    simp only [TELEMETRY_BUFFER_SIZE] at *
    omega
  have hcsucc : b.count = (TELEMETRY_BUFFER_SIZE - 1) + 1 := by
    simp only [TELEMETRY_BUFFER_SIZE] at *
    omega
  rw [bufContents_succ b (TELEMETRY_BUFFER_SIZE - 1) hcsucc h2, List.tail_cons]
  unfold bufContents
  rw [pushedFull_count b r hc]
  have hrange : List.range TELEMETRY_BUFFER_SIZE =
      List.range (TELEMETRY_BUFFER_SIZE - 1) ++ [TELEMETRY_BUFFER_SIZE - 1] := by
    have hs : TELEMETRY_BUFFER_SIZE = 2047 + 1 := by norm_num [TELEMETRY_BUFFER_SIZE]
    rw [hs, List.range_succ]
  rw [hrange, List.map_append, List.map_singleton]
  congr 1
  · apply List.map_congr_left
    intro i hi
    simp only [List.mem_range] at hi
    simp only [pushedFull]
    have hne : (b.read_index + (i + 1)) % TELEMETRY_BUFFER_SIZE ≠ b.write_index := by
      rw [hwr]
      simp only [TELEMETRY_BUFFER_SIZE] at *
      omega
    have harg : ((b.read_index + 1) % TELEMETRY_BUFFER_SIZE + i) %
        TELEMETRY_BUFFER_SIZE = (b.read_index + (i + 1)) % TELEMETRY_BUFFER_SIZE := by
      simp only [TELEMETRY_BUFFER_SIZE] at *
      omega
    simp only [harg, hne, if_neg, not_false_eq_true]
  · simp only [pushedFull]
    have heq : ((b.read_index + 1) % TELEMETRY_BUFFER_SIZE +
        (TELEMETRY_BUFFER_SIZE - 1)) % TELEMETRY_BUFFER_SIZE = b.write_index := by
      rw [hwr]
      simp only [TELEMETRY_BUFFER_SIZE] at *
      omega
    simp [heq]

theorem peek_state (b : CircularBuffer) (offset : Nat) :
    (CircularBuffer_Peek b offset).2.2 = b := by
  unfold CircularBuffer_Peek
  split
  · rfl
  · split <;> rfl

theorem pop_eq_empty (b : CircularBuffer) (hinit : b.initialized = true)
    (hc : b.count = 0) :
    CircularBuffer_Pop b = (STATUS_NO_DATA, none, b) := by
  unfold CircularBuffer_Pop
  simp [hinit, hc]

theorem bufContents_empty (b : CircularBuffer) (hc : b.count = 0) :
    bufContents b = [] := by
  simp [bufContents, hc]

theorem popBatchLoop_spec (n : Nat) : ∀ b : CircularBuffer, BufInv b →
    (popBatchLoop b n).1 = (bufContents b).take n ∧
    bufContents (popBatchLoop b n).2 = (bufContents b).drop n ∧
    BufInv (popBatchLoop b n).2 := by
  induction n with
  | zero =>
    intro b hInv
    exact ⟨rfl, rfl, hInv⟩
  | succ n ih =>
    intro b hInv
    by_cases hc : b.count = 0
    · have hpop := pop_eq_empty b hInv.2.2.2 hc
      have hnil := bufContents_empty b hc
      simp only [popBatchLoop, hpop]
      refine ⟨?_, ?_, hInv⟩ <;> simp [hnil]
    · have hcpos : 0 < b.count := Nat.pos_of_ne_zero hc
      have hpop := pop_eq_ok b hInv.2.2.2 hcpos hInv.1
      have hcons := bufContents_popped b hInv hcpos
      have hInv' := bufInv_popped b hInv hcpos
      obtain ⟨ih1, ih2, ih3⟩ := ih (poppedState b) hInv'
      simp only [popBatchLoop, hpop, hcons, List.take_succ_cons, List.drop_succ_cons]
      exact ⟨by rw [ih1], by rw [ih2], ih3⟩

/-- The operations a client can perform on a live buffer (the read-only
accessors do not change the state and are omitted). -/
inductive BufOp where
  | push (r : TelemetryRecord)
  | pop
  | peek (offset : Nat)
  | clear
  | popBatch (max : Nat)

/-- State transition of a single buffer operation. -/
def applyOp (b : CircularBuffer) : BufOp → CircularBuffer
  | .push r => (CircularBuffer_Push b r).2
  | .pop => (CircularBuffer_Pop b).2.2
  | .peek offset => (CircularBuffer_Peek b offset).2.2
  | .clear => (CircularBuffer_Clear b).2
  | .popBatch max => (CircularBuffer_PopBatch b max).2.2

/-- Run a sequence of buffer operations from a starting state. -/
def runOps (b : CircularBuffer) (ops : List BufOp) : CircularBuffer :=
  ops.foldl applyOp b

theorem bufInv_applyOp (b : CircularBuffer) (op : BufOp) (hInv : BufInv b) :
    BufInv (applyOp b op) := by
  cases op with
  | push r =>
    by_cases hc : b.count < TELEMETRY_BUFFER_SIZE
    · have h := push_eq_not_full b r hInv.2.2.2 hc
      simp only [applyOp, h]
      exact bufInv_pushedNotFull b r hInv hc
    · have hce : b.count = TELEMETRY_BUFFER_SIZE := by
        have := hInv.1
        omega
      have h := push_eq_full b r hInv.2.2.2 (by omega)
      simp only [applyOp, h]
      exact bufInv_pushedFull b r hInv hce
  | pop =>
    by_cases hc : b.count = 0
    · simp only [applyOp, pop_eq_empty b hInv.2.2.2 hc]
      exact hInv
    · simp only [applyOp, pop_eq_ok b hInv.2.2.2 (Nat.pos_of_ne_zero hc) hInv.1]
      exact bufInv_popped b hInv (Nat.pos_of_ne_zero hc)
  | peek offset =>
    simp only [applyOp, peek_state]
    exact hInv
  | clear =>
    refine ⟨?_, ?_, ?_, ?_⟩ <;>
      simp [applyOp, CircularBuffer_Clear, hInv.2.2.2, TELEMETRY_BUFFER_SIZE]
  | popBatch max =>
    by_cases hm : max = 0
    · simp only [applyOp, CircularBuffer_PopBatch, hm]
      simpa using hInv
    · have := (popBatchLoop_spec max b hInv).2.2
      simp only [applyOp, CircularBuffer_PopBatch, hm, hInv.2.2.2]
      simpa using this

theorem bufInv_runOps (ops : List BufOp) : ∀ b : CircularBuffer, BufInv b →
    BufInv (runOps b ops) := by
  induction ops with
  | nil => intro b h; exact h
  | cons op ops ih =>
    intro b h
    exact ih (applyOp b op) (bufInv_applyOp b op h)

/-- Claim C1: for every sequence of operations on an initialized Record
Buffer, `0 ≤ count ≤ N` always holds (the lower bound is inherent to the
`Nat` model; the upper bound is proved for every operation sequence from
`CircularBuffer_Init`); a push made while `count = N` returns `STATUS_OK`,
keeps `count = N`, advances the read index by one slot — so the live
content loses exactly its single oldest record and gains the new one —
and increments `overflow_count` by exactly one; a push made while
`count < N` returns `STATUS_OK`, increments `count` by one and leaves
`overflow_count` (and the read index) untouched. -/
theorem C1_count_bounds_and_overflow_policy :
    (∀ ops : List BufOp,
      (runOps CircularBuffer_Init ops).count ≤ TELEMETRY_BUFFER_SIZE) ∧
    (∀ (b : CircularBuffer) (r : TelemetryRecord), BufInv b →
      b.count = TELEMETRY_BUFFER_SIZE → b.overflow_count < 4294967295 →
      (CircularBuffer_Push b r).1 = STATUS_OK ∧
      (CircularBuffer_Push b r).2.count = TELEMETRY_BUFFER_SIZE ∧
      (CircularBuffer_Push b r).2.overflow_count = b.overflow_count + 1 ∧
      (CircularBuffer_Push b r).2.read_index =
        (b.read_index + 1) % TELEMETRY_BUFFER_SIZE ∧
      bufContents (CircularBuffer_Push b r).2 = (bufContents b).tail ++ [r]) ∧
    (∀ (b : CircularBuffer) (r : TelemetryRecord), BufInv b →
      b.count < TELEMETRY_BUFFER_SIZE →
      (CircularBuffer_Push b r).1 = STATUS_OK ∧
      (CircularBuffer_Push b r).2.count = b.count + 1 ∧
      (CircularBuffer_Push b r).2.overflow_count = b.overflow_count ∧
      (CircularBuffer_Push b r).2.read_index = b.read_index ∧
      bufContents (CircularBuffer_Push b r).2 = bufContents b ++ [r]) := by
  refine ⟨?_, ?_, ?_⟩
  · intro ops
    exact (bufInv_runOps ops CircularBuffer_Init bufInv_init).1
  · intro b r hInv hc hov
    have h := push_eq_full b r hInv.2.2.2 (by omega)
    have hovadd : add32 b.overflow_count 1 = b.overflow_count + 1 := by
      apply add32_eq
      omega
    refine ⟨by rw [h], ?_, ?_, ?_, ?_⟩
    · rw [h]
      exact pushedFull_count b r hc
    · rw [h]
      show (pushedFull b r).overflow_count = b.overflow_count + 1
      rw [← hovadd]
      rfl
    · rw [h]
      rfl
    · rw [h]
      exact bufContents_pushedFull b r hInv hc
  · intro b r hInv hc
    have h := push_eq_not_full b r hInv.2.2.2 hc
    refine ⟨by rw [h], ?_, by rw [h]; rfl, by rw [h]; rfl, ?_⟩
    · rw [h]
      exact pushedNotFull_count b r hc
    · rw [h]
      exact bufContents_pushedNotFull b r hInv hc

/-- A concrete full buffer used to instantiate the hypotheses of C1. -/
def fullBufferExample : CircularBuffer :=
  { records := fun _ => zeroRecord
    write_index := 0
    read_index := 0
    count := TELEMETRY_BUFFER_SIZE
    overflow_count := 0
    initialized := true }

/-- Witness for C1: its hypotheses are satisfiable — instantiated at a
concrete full buffer and at the freshly initialized (empty) buffer. -/
theorem C1_count_bounds_and_overflow_policy_witness :
    ((CircularBuffer_Push fullBufferExample zeroRecord).1 = STATUS_OK ∧
      (CircularBuffer_Push fullBufferExample zeroRecord).2.count = TELEMETRY_BUFFER_SIZE ∧
      (CircularBuffer_Push fullBufferExample zeroRecord).2.overflow_count = 0 + 1 ∧
      (CircularBuffer_Push fullBufferExample zeroRecord).2.read_index =
        (0 + 1) % TELEMETRY_BUFFER_SIZE ∧
      bufContents (CircularBuffer_Push fullBufferExample zeroRecord).2 =
        (bufContents fullBufferExample).tail ++ [zeroRecord]) ∧
    ((CircularBuffer_Push CircularBuffer_Init zeroRecord).1 = STATUS_OK ∧
      (CircularBuffer_Push CircularBuffer_Init zeroRecord).2.count = 0 + 1 ∧
      (CircularBuffer_Push CircularBuffer_Init zeroRecord).2.overflow_count = 0 ∧
      (CircularBuffer_Push CircularBuffer_Init zeroRecord).2.read_index = 0 ∧
      bufContents (CircularBuffer_Push CircularBuffer_Init zeroRecord).2 =
        bufContents CircularBuffer_Init ++ [zeroRecord]) :=
  ⟨C1_count_bounds_and_overflow_policy.2.1 fullBufferExample zeroRecord
      (by decide) (by decide) (by decide),
    C1_count_bounds_and_overflow_policy.2.2 CircularBuffer_Init zeroRecord
      (by decide) (by decide)⟩

/-- Claim C3: pushing a record `r` onto an empty initialized buffer and
then popping returns `STATUS_OK` and a record equal to `r`.  Records are
transferred by whole-struct `memcpy`, so equality of the returned
`TelemetryRecord` structure is byte-for-byte equality of all 32 bytes,
including the trailing `crc16` field. -/
theorem C3_push_pop_roundtrip (b : CircularBuffer) (r : TelemetryRecord)
    (hInv : BufInv b) (hc : b.count = 0) :
    (CircularBuffer_Pop (CircularBuffer_Push b r).2).1 = STATUS_OK ∧
    (CircularBuffer_Pop (CircularBuffer_Push b r).2).2.1 = some r := by
  obtain ⟨h1, h2, h3, h4⟩ := hInv
  have hlt : b.count < TELEMETRY_BUFFER_SIZE := by
    simp only [TELEMETRY_BUFFER_SIZE] at *
    omega
  have hp := push_eq_not_full b r h4 hlt
  rw [hp]
  have hcount : (pushedNotFull b r).count = 1 := by
    rw [pushedNotFull_count b r hlt, hc]
  have hpop := pop_eq_ok (pushedNotFull b r) h4 (by omega)
    (by rw [hcount]; simp [TELEMETRY_BUFFER_SIZE])
  rw [hpop]
  refine ⟨rfl, ?_⟩
  show some ((pushedNotFull b r).records (pushedNotFull b r).read_index) = some r
  have hw : b.write_index = b.read_index := by
    rw [h3, hc]
    simp only [TELEMETRY_BUFFER_SIZE] at *
    omega
  simp [pushedNotFull, hw]

/-- A sample record with distinctive field values. -/
def sampleRecord : TelemetryRecord :=
  { timestamp := 1700000000, speed := 88, battery_voltage := 12, latitude := 48,
    longitude := -11, altitude := 545, gps_satellites := 8, gps_fix_quality := 1,
    flags := 7, reserved := 0, crc16 := 4242 }

/-- Witness for C3: instantiated at the freshly initialized buffer and a
concrete record. -/
theorem C3_push_pop_roundtrip_witness :
    (CircularBuffer_Pop (CircularBuffer_Push CircularBuffer_Init sampleRecord).2).1 =
      STATUS_OK ∧
    (CircularBuffer_Pop (CircularBuffer_Push CircularBuffer_Init sampleRecord).2).2.1 =
      some sampleRecord :=
  C3_push_pop_roundtrip CircularBuffer_Init sampleRecord (by decide) (by decide)

/-- Claim C8: `pop_batch` on an initialized buffer with `max > 0` returns
exactly `min max count` records — the oldest ones, in FIFO order — never
fails outright (its result is just the copied count), and when `max`
exceeds `count` it returns exactly `count` records and leaves the buffer
empty. -/
theorem C8_pop_batch_drains_in_order (b : CircularBuffer) (max : Nat)
    (hInv : BufInv b) (hmax : 0 < max) :
    (CircularBuffer_PopBatch b max).1 = min max b.count ∧
    (CircularBuffer_PopBatch b max).2.1 = (bufContents b).take max ∧
    bufContents (CircularBuffer_PopBatch b max).2.2 = (bufContents b).drop max ∧
    (b.count < max → (CircularBuffer_PopBatch b max).2.2.count = 0) := by
  have hm0 : ¬ max = 0 := by omega
  obtain ⟨hs1, hs2, hs3⟩ := popBatchLoop_spec max b hInv
  have hred : CircularBuffer_PopBatch b max =
      ((popBatchLoop b max).1.length, (popBatchLoop b max).1,
        (popBatchLoop b max).2) := by
    unfold CircularBuffer_PopBatch
    simp [hm0, hInv.2.2.2]
  rw [hred]
  refine ⟨?_, hs1, hs2, ?_⟩
  · rw [hs1, List.length_take, bufContents_length]
  · intro hlt
    have hlen := bufContents_length (popBatchLoop b max).2
    rw [hs2, List.length_drop, bufContents_length] at hlen
    show (popBatchLoop b max).2.count = 0
    omega

/-- Witness for C8: instantiated at a concrete full buffer with a batch
size exceeding the capacity. -/
theorem C8_pop_batch_drains_in_order_witness :
    (CircularBuffer_PopBatch fullBufferExample 4096).1 =
      min 4096 fullBufferExample.count ∧
    (CircularBuffer_PopBatch fullBufferExample 4096).2.1 =
      (bufContents fullBufferExample).take 4096 ∧
    bufContents (CircularBuffer_PopBatch fullBufferExample 4096).2.2 =
      (bufContents fullBufferExample).drop 4096 ∧
    (fullBufferExample.count < 4096 →
      (CircularBuffer_PopBatch fullBufferExample 4096).2.2.count = 0) :=
  C8_pop_batch_drains_in_order fullBufferExample 4096 (by decide) (by decide)

/-- Claim C9: on an initialized buffer, `peek(out, offset)` with
`offset < count` returns `STATUS_OK` and the record at
`read_index + offset (mod N)`, while `offset ≥ count` fails with
`STATUS_NO_DATA`; in both cases the buffer state — `count`, `read_index`,
`write_index` and the stored records — is returned unchanged, so every
subsequent `pop` behaves exactly as it would have without the peek. -/
theorem C9_peek_is_pure_read (b : CircularBuffer) (offset : Nat)
    (hInv : BufInv b) :
    (offset < b.count →
      CircularBuffer_Peek b offset =
        (STATUS_OK,
          some (b.records ((b.read_index + offset) % TELEMETRY_BUFFER_SIZE)), b)) ∧
    (b.count ≤ offset →
      CircularBuffer_Peek b offset = (STATUS_NO_DATA, none, b)) ∧
    (CircularBuffer_Peek b offset).2.2 = b ∧
    CircularBuffer_Pop (CircularBuffer_Peek b offset).2.2 = CircularBuffer_Pop b := by
  have h4 := hInv.2.2.2
  refine ⟨?_, ?_, peek_state b offset, by rw [peek_state]⟩
  · intro hlt
    have hnge : ¬ offset ≥ b.count := by omega
    unfold CircularBuffer_Peek
    simp [h4, hnge]
  · intro hge
    unfold CircularBuffer_Peek
    simp [h4, hge]

/-- Witness for C9: instantiated at a concrete full buffer and offset 0. -/
theorem C9_peek_is_pure_read_witness :
    (0 < fullBufferExample.count →
      CircularBuffer_Peek fullBufferExample 0 =
        (STATUS_OK,
          some (fullBufferExample.records
            ((fullBufferExample.read_index + 0) % TELEMETRY_BUFFER_SIZE)),
          fullBufferExample)) ∧
    (fullBufferExample.count ≤ 0 →
      CircularBuffer_Peek fullBufferExample 0 =
        (STATUS_NO_DATA, none, fullBufferExample)) ∧
    (CircularBuffer_Peek fullBufferExample 0).2.2 = fullBufferExample ∧
    CircularBuffer_Pop (CircularBuffer_Peek fullBufferExample 0).2.2 =
      CircularBuffer_Pop fullBufferExample :=
  C9_peek_is_pure_read fullBufferExample 0 (by decide)

/-! ## Power manager (src/middleware/power_manager.c)

The monotonic millisecond clock `now_ms()` is an external collaborator of
the core ("a monotonic millisecond clock source … treated as given
primitives the core depends on"); in the source every call site reads it
through a `TODO: Get current system time` placeholder.  It is therefore
modelled from the spec as an explicit `now` parameter of each function
that reads the clock.  The peripheral power-state collaborators
(`CAN_SetPowerState`, `GPS_SetPowerState`, …) are modelled as an
invocation trace returned alongside the state. -/

/-- `PowerMode_t` from include/telemetry_types.h. -/
inductive PowerMode where
  | POWER_MODE_ACTIVE
  | POWER_MODE_IDLE
  | POWER_MODE_DEEP_SLEEP
deriving DecidableEq, Repr

open PowerMode

/-- `Component_t` from include/telemetry_types.h (the members the power
manager drives). -/
inductive Component where
  | COMPONENT_GPS
  | COMPONENT_CAN
  | COMPONENT_ADC
deriving DecidableEq, Repr

open Component

/-- `PeripheralState_t` from src/middleware/power_manager.h. -/
structure PeripheralState where
  can_enabled : Bool
  gps_enabled : Bool
  cellular_enabled : Bool
  lorawan_enabled : Bool
  flash_enabled : Bool
deriving DecidableEq

/-- `CURRENT_ACTIVE_MA` from include/config.h. -/
def CURRENT_ACTIVE_MA : ℚ := 45

/-- `CURRENT_IDLE_MA` from include/config.h. -/
def CURRENT_IDLE_MA : ℚ := 8

/-- `CURRENT_DEEP_SLEEP_UA` from include/config.h (2.5 µA). -/
def CURRENT_DEEP_SLEEP_UA : ℚ := 5 / 2

/-- `IDLE_TIMEOUT_MS` from include/config.h. -/
def IDLE_TIMEOUT_MS : Nat := 30000

/-- The module-level mutable state of power_manager.c, gathered into one
record.  C `float` energy bookkeeping is modelled as exact rationals;
the registered wake callbacks are modelled by which of the 5 slots holds
a callback. -/
structure PowerManagerState where
  current_mode : PowerMode
  previous_mode : PowerMode
  power_initialized : Bool
  idle_timeout_ms : Nat
  last_activity_time : Nat
  mode_entry_time : Nat
  time_active_ms : Nat
  time_idle_ms : Nat
  time_sleep_ms : Nat
  cumulative_energy_mah : ℚ
  last_energy_update_time : Nat
  peripheral_configs : PowerMode → PeripheralState
  wake_callbacks : Fin 5 → Bool

/-- The static initializer of `peripheral_configs` in power_manager.c. -/
def powerDefaultConfigs : PowerMode → PeripheralState
  | POWER_MODE_ACTIVE =>
    { can_enabled := true, gps_enabled := true, cellular_enabled := true,
      lorawan_enabled := true, flash_enabled := true }
  | POWER_MODE_IDLE =>
    { can_enabled := true, gps_enabled := false, cellular_enabled := false,
      lorawan_enabled := false, flash_enabled := false }
  | POWER_MODE_DEEP_SLEEP =>
    { can_enabled := false, gps_enabled := false, cellular_enabled := false,
      lorawan_enabled := false, flash_enabled := false }

/-- The state after `Power_Init` (lines 64-84 of power_manager.c; the
initial time reads are the placeholder zero, matching the source). -/
def Power_InitState : PowerManagerState :=
  { current_mode := POWER_MODE_ACTIVE
    previous_mode := POWER_MODE_ACTIVE
    power_initialized := true
    idle_timeout_ms := IDLE_TIMEOUT_MS
    last_activity_time := 0
    mode_entry_time := 0
    time_active_ms := 0
    time_idle_ms := 0
    time_sleep_ms := 0
    cumulative_energy_mah := 0
    last_energy_update_time := 0
    peripheral_configs := powerDefaultConfigs
    wake_callbacks := fun _ => false }

/-- `Power_GetCurrentConsumption` (power_manager.c, lines 175-186). -/
def Power_GetCurrentConsumption (s : PowerManagerState) : ℚ :=
  match s.current_mode with
  | POWER_MODE_ACTIVE => CURRENT_ACTIVE_MA
  | POWER_MODE_IDLE => CURRENT_IDLE_MA
  | POWER_MODE_DEEP_SLEEP => CURRENT_DEEP_SLEEP_UA / 1000

/-- `Power_UpdateEnergyConsumption` (power_manager.c, lines 279-292),
with the clock reading passed in as `now`. -/
def Power_UpdateEnergyConsumption (s : PowerManagerState) (now : Nat) :
    PowerManagerState :=
  let elapsed_ms := sub32 now s.last_energy_update_time
  if elapsed_ms = 0 then s
  else
    let current_ma := Power_GetCurrentConsumption s
    let energy_mah := (current_ma * (elapsed_ms : ℚ)) / 3600000
    { s with cumulative_energy_mah := s.cumulative_energy_mah + energy_mah
             last_energy_update_time := now }

/-- `Power_ApplyPeripheralStates` (power_manager.c, lines 269-277): the
source invokes the CAN and GPS power-state collaborators; the invocations
are returned as a trace. -/
def Power_ApplyPeripheralStates (states : PeripheralState) :
    List (Component × Bool) :=
  [(COMPONENT_CAN, states.can_enabled), (COMPONENT_GPS, states.gps_enabled)]

/-- The `switch (current_mode)` of `Power_SetMode` (lines 99-109) that
flushes the elapsed dwell time into the counter of the mode being left. -/
def settleDwellStatistics (s : PowerManagerState) (now : Nat) : PowerManagerState :=
  let time_in_mode := sub32 now s.mode_entry_time
  match s.current_mode with
  | POWER_MODE_ACTIVE =>
    { s with time_active_ms := add32 s.time_active_ms time_in_mode }
  | POWER_MODE_IDLE =>
    { s with time_idle_ms := add32 s.time_idle_ms time_in_mode }
  | POWER_MODE_DEEP_SLEEP =>
    { s with time_sleep_ms := add32 s.time_sleep_ms time_in_mode }

/-- `Power_SetMode` (power_manager.c, lines 86-148).
`Power_ConfigureWakeSources` and the trailing hardware `switch` are pure
TODO placeholders in the source and have no state effect.  Returns the
status, the new state, and the trace of peripheral collaborator calls. -/
def Power_SetMode (s : PowerManagerState) (mode : PowerMode) (now : Nat) :
    StatusCode × PowerManagerState × List (Component × Bool) :=
  if s.power_initialized = false then (STATUS_NOT_INITIALIZED, s, [])
  else if mode = s.current_mode then (STATUS_OK, s, [])
  else
    let s1 := settleDwellStatistics s now
    let s2 := Power_UpdateEnergyConsumption s1 now
    let trace := Power_ApplyPeripheralStates (s.peripheral_configs mode)
    (STATUS_OK,
      { s2 with previous_mode := s2.current_mode
                current_mode := mode
                mode_entry_time := now },
      trace)

/-- The cumulative dwell counter associated with a mode. -/
def dwellOf (s : PowerManagerState) : PowerMode → Nat
  | POWER_MODE_ACTIVE => s.time_active_ms
  | POWER_MODE_IDLE => s.time_idle_ms
  | POWER_MODE_DEEP_SLEEP => s.time_sleep_ms

/-- The current-draw model per mode (the `switch` of
`Power_GetCurrentConsumption`, as a function of the mode). -/
def currentDraw : PowerMode → ℚ
  | POWER_MODE_ACTIVE => CURRENT_ACTIVE_MA
  | POWER_MODE_IDLE => CURRENT_IDLE_MA
  | POWER_MODE_DEEP_SLEEP => CURRENT_DEEP_SLEEP_UA / 1000

theorem getCurrentConsumption_eq (s : PowerManagerState) :
    Power_GetCurrentConsumption s = currentDraw s.current_mode := by
  cases h : s.current_mode <;> simp [Power_GetCurrentConsumption, currentDraw, h]

theorem settle_current_mode (s : PowerManagerState) (now : Nat) :
    (settleDwellStatistics s now).current_mode = s.current_mode := by
  unfold settleDwellStatistics
  cases s.current_mode <;> rfl

theorem settle_energy (s : PowerManagerState) (now : Nat) :
    (settleDwellStatistics s now).cumulative_energy_mah = s.cumulative_energy_mah := by
  unfold settleDwellStatistics
  cases s.current_mode <;> rfl

theorem settle_last_energy (s : PowerManagerState) (now : Nat) :
    (settleDwellStatistics s now).last_energy_update_time =
      s.last_energy_update_time := by
  unfold settleDwellStatistics
  cases s.current_mode <;> rfl

theorem settle_initialized (s : PowerManagerState) (now : Nat) :
    (settleDwellStatistics s now).power_initialized = s.power_initialized := by
  unfold settleDwellStatistics
  cases s.current_mode <;> rfl

theorem settle_entry (s : PowerManagerState) (now : Nat) :
    (settleDwellStatistics s now).mode_entry_time = s.mode_entry_time := by
  unfold settleDwellStatistics
  cases s.current_mode <;> rfl

theorem settle_dwell_self (s : PowerManagerState) (now : Nat) :
    dwellOf (settleDwellStatistics s now) s.current_mode =
      add32 (dwellOf s s.current_mode) (sub32 now s.mode_entry_time) := by
  unfold settleDwellStatistics dwellOf
  cases s.current_mode <;> rfl

theorem settle_dwell_other (s : PowerManagerState) (now : Nat) (M : PowerMode)
    (h : M ≠ s.current_mode) :
    dwellOf (settleDwellStatistics s now) M = dwellOf s M := by
  unfold settleDwellStatistics dwellOf
  cases hs : s.current_mode <;> cases M <;> simp_all

theorem updateEnergy_energy (s : PowerManagerState) (now : Nat)
    (hle : s.last_energy_update_time ≤ now) (hlt : now < 4294967296) :
    (Power_UpdateEnergyConsumption s now).cumulative_energy_mah =
      s.cumulative_energy_mah +
        Power_GetCurrentConsumption s *
          ((now - s.last_energy_update_time : Nat) : ℚ) / 3600000 := by
  unfold Power_UpdateEnergyConsumption
  rw [sub32_eq now s.last_energy_update_time hle hlt]
  by_cases h0 : now - s.last_energy_update_time = 0
  · rw [h0]
    simp
  · simp only [h0, if_neg, not_false_eq_true]

theorem updateEnergy_last (s : PowerManagerState) (now : Nat)
    (hle : s.last_energy_update_time ≤ now) (hlt : now < 4294967296) :
    (Power_UpdateEnergyConsumption s now).last_energy_update_time = now := by
  rw [Power_UpdateEnergyConsumption, sub32_eq now s.last_energy_update_time hle hlt]
  by_cases h0 : now - s.last_energy_update_time = 0
  · have hn : s.last_energy_update_time = now := by omega
    simp [h0, hn]
  · simp [h0]

theorem updateEnergy_current_mode (s : PowerManagerState) (now : Nat) :
    (Power_UpdateEnergyConsumption s now).current_mode = s.current_mode := by
  by_cases h0 : sub32 now s.last_energy_update_time = 0 <;>
    simp [Power_UpdateEnergyConsumption, h0]

theorem updateEnergy_dwell (s : PowerManagerState) (now : Nat) (M : PowerMode) :
    dwellOf (Power_UpdateEnergyConsumption s now) M = dwellOf s M := by
  cases M <;>
    by_cases h0 : sub32 now s.last_energy_update_time = 0 <;>
    simp [Power_UpdateEnergyConsumption, dwellOf, h0]

theorem updateEnergy_initialized (s : PowerManagerState) (now : Nat) :
    (Power_UpdateEnergyConsumption s now).power_initialized =
      s.power_initialized := by
  by_cases h0 : sub32 now s.last_energy_update_time = 0 <;>
    simp [Power_UpdateEnergyConsumption, h0]

theorem setMode_eq (s : PowerManagerState) (mode : PowerMode) (now : Nat)
    (hinit : s.power_initialized = true) (hne : ¬ mode = s.current_mode) :
    Power_SetMode s mode now =
      (STATUS_OK,
        { Power_UpdateEnergyConsumption (settleDwellStatistics s now) now with
            previous_mode :=
              (Power_UpdateEnergyConsumption (settleDwellStatistics s now)
                now).current_mode
            current_mode := mode
            mode_entry_time := now },
        Power_ApplyPeripheralStates (s.peripheral_configs mode)) := by
  unfold Power_SetMode
  simp [hinit, hne]

theorem dwellOf_transition (x : PowerManagerState) (p c : PowerMode) (n : Nat)
    (M : PowerMode) :
    dwellOf { x with previous_mode := p, current_mode := c, mode_entry_time := n }
      M = dwellOf x M := by
  cases M <;> rfl

/-- Claim C2: `Power_SetMode(B)` with `B ≠ A = current_mode` settles A's
dwell time into A's cumulative counter and integrates energy at A's
current-draw rate into `cumulative_energy_mah` — both computed from the
state before the mode variable changes — then records
`previous_mode = A`, `current_mode = B` and resets the mode-entry
timestamp; consequently ACTIVE→DEEP_SLEEP→ACTIVE spending exactly `T` ms
in DEEP_SLEEP adds `(CURRENT_DEEP_SLEEP_UA/1000) × T / 3 600 000` mAh of
energy during the sleep dwell (exact in the rational model, which
abstracts the C `float` rounding) and attributes exactly `T` ms to the
DEEP_SLEEP dwell statistic.  The clock is the spec's external `now_ms()`
collaborator, passed as `now`. -/
theorem C2_set_mode_settles_accounting_before_switch :
    (∀ (s : PowerManagerState) (B : PowerMode) (now : Nat),
      s.power_initialized = true → ¬ B = s.current_mode →
      s.mode_entry_time ≤ now → s.last_energy_update_time ≤ now →
      now < 4294967296 →
      dwellOf s s.current_mode + (now - s.mode_entry_time) < 4294967296 →
      (Power_SetMode s B now).1 = STATUS_OK ∧
      (Power_SetMode s B now).2.1.previous_mode = s.current_mode ∧
      (Power_SetMode s B now).2.1.current_mode = B ∧
      (Power_SetMode s B now).2.1.mode_entry_time = now ∧
      dwellOf (Power_SetMode s B now).2.1 s.current_mode =
        dwellOf s s.current_mode + (now - s.mode_entry_time) ∧
      (∀ M : PowerMode, M ≠ s.current_mode →
        dwellOf (Power_SetMode s B now).2.1 M = dwellOf s M) ∧
      (Power_SetMode s B now).2.1.cumulative_energy_mah =
        s.cumulative_energy_mah +
          currentDraw s.current_mode *
            ((now - s.last_energy_update_time : Nat) : ℚ) / 3600000) ∧
    (∀ (s : PowerManagerState) (t1 T : Nat),
      s.power_initialized = true → s.current_mode = POWER_MODE_ACTIVE →
      s.last_energy_update_time ≤ t1 → t1 + T < 4294967296 →
      s.time_sleep_ms + T < 4294967296 →
      (Power_SetMode (Power_SetMode s POWER_MODE_DEEP_SLEEP t1).2.1
          POWER_MODE_ACTIVE (t1 + T)).2.1.time_sleep_ms =
        s.time_sleep_ms + T ∧
      (Power_SetMode (Power_SetMode s POWER_MODE_DEEP_SLEEP t1).2.1
          POWER_MODE_ACTIVE (t1 + T)).2.1.cumulative_energy_mah =
        (Power_SetMode s POWER_MODE_DEEP_SLEEP t1).2.1.cumulative_energy_mah +
          (CURRENT_DEEP_SLEEP_UA / 1000) * (T : ℚ) / 3600000) := by
  constructor
  · intro s B now hinit hne hent hle hlt hbound
    have hsm := setMode_eq s B now hinit hne
    have hs1le : (settleDwellStatistics s now).last_energy_update_time ≤ now := by
      rw [settle_last_energy]
      exact hle
    rw [hsm]
    refine ⟨rfl, ?_, rfl, rfl, ?_, ?_, ?_⟩
    · show (Power_UpdateEnergyConsumption (settleDwellStatistics s now)
        now).current_mode = s.current_mode
      rw [updateEnergy_current_mode, settle_current_mode]
    · rw [dwellOf_transition, updateEnergy_dwell, settle_dwell_self,
        sub32_eq now s.mode_entry_time hent hlt]
      exact add32_eq _ _ hbound
    · intro M hM
      rw [dwellOf_transition, updateEnergy_dwell, settle_dwell_other s now M hM]
    · show (Power_UpdateEnergyConsumption (settleDwellStatistics s now)
        now).cumulative_energy_mah = _
      rw [updateEnergy_energy _ now hs1le hlt, settle_energy, settle_last_energy,
        getCurrentConsumption_eq, settle_current_mode]
  · intro s t1 T hinit hact hle hsum hbound
    have ht1 : t1 < 4294967296 := by omega
    have hne1 : ¬ POWER_MODE_DEEP_SLEEP = s.current_mode := by
      rw [hact]
      decide
    have h1 := setMode_eq s POWER_MODE_DEEP_SLEEP t1 hinit hne1
    have f1 : (Power_SetMode s POWER_MODE_DEEP_SLEEP t1).2.1.current_mode =
        POWER_MODE_DEEP_SLEEP := by
      rw [h1]
    have f2 : (Power_SetMode s POWER_MODE_DEEP_SLEEP t1).2.1.time_sleep_ms =
        s.time_sleep_ms := by
      rw [h1]
      show dwellOf (Power_UpdateEnergyConsumption (settleDwellStatistics s t1) t1)
        POWER_MODE_DEEP_SLEEP = s.time_sleep_ms
      rw [updateEnergy_dwell,
        settle_dwell_other s t1 POWER_MODE_DEEP_SLEEP (by rw [hact]; decide)]
      rfl
    have f3 : (Power_SetMode s POWER_MODE_DEEP_SLEEP t1).2.1.mode_entry_time = t1 := by
      rw [h1]
    have f4 : (Power_SetMode s POWER_MODE_DEEP_SLEEP t1).2.1.last_energy_update_time =
        t1 := by
      rw [h1]
      show (Power_UpdateEnergyConsumption (settleDwellStatistics s t1)
        t1).last_energy_update_time = t1
      apply updateEnergy_last
      · rw [settle_last_energy]
        exact hle
      · exact ht1
    have f5 : (Power_SetMode s POWER_MODE_DEEP_SLEEP t1).2.1.power_initialized =
        true := by
      rw [h1]
      show (Power_UpdateEnergyConsumption (settleDwellStatistics s t1)
        t1).power_initialized = true
      rw [updateEnergy_initialized, settle_initialized]
      exact hinit
    have hne2 : ¬ POWER_MODE_ACTIVE =
        (Power_SetMode s POWER_MODE_DEEP_SLEEP t1).2.1.current_mode := by
      rw [f1]
      decide
    have h2 := setMode_eq (Power_SetMode s POWER_MODE_DEEP_SLEEP t1).2.1
      POWER_MODE_ACTIVE (t1 + T) f5 hne2
    constructor
    · rw [h2]
      show dwellOf (Power_UpdateEnergyConsumption
        (settleDwellStatistics (Power_SetMode s POWER_MODE_DEEP_SLEEP t1).2.1
          (t1 + T)) (t1 + T)) POWER_MODE_DEEP_SLEEP = s.time_sleep_ms + T
      rw [updateEnergy_dwell]
      have hself := settle_dwell_self (Power_SetMode s POWER_MODE_DEEP_SLEEP t1).2.1
        (t1 + T)
      rw [f1] at hself
      rw [hself]
      show add32 (dwellOf (Power_SetMode s POWER_MODE_DEEP_SLEEP t1).2.1
        POWER_MODE_DEEP_SLEEP) _ = _
      have hd : dwellOf (Power_SetMode s POWER_MODE_DEEP_SLEEP t1).2.1
          POWER_MODE_DEEP_SLEEP = s.time_sleep_ms := f2
      rw [hd, f3, sub32_eq (t1 + T) t1 (by omega) hsum]
      have hT : t1 + T - t1 = T := by omega
      rw [hT]
      exact add32_eq _ _ hbound
    · rw [h2]
      show (Power_UpdateEnergyConsumption
        (settleDwellStatistics (Power_SetMode s POWER_MODE_DEEP_SLEEP t1).2.1
          (t1 + T)) (t1 + T)).cumulative_energy_mah = _
      rw [updateEnergy_energy _ (t1 + T)
        (by rw [settle_last_energy, f4]; omega) hsum]
      rw [settle_energy, settle_last_energy, f4, getCurrentConsumption_eq,
        settle_current_mode, f1]
      have hT : t1 + T - t1 = T := by omega
      rw [hT]
      rfl

/-- Witness for C2: instantiated at the freshly initialized power manager,
an ACTIVE→IDLE transition at `now = 5`, and an ACTIVE→DEEP_SLEEP→ACTIVE
round trip with `t1 = 10`, `T = 25`. -/
theorem C2_set_mode_settles_accounting_before_switch_witness :
    (Power_SetMode Power_InitState POWER_MODE_IDLE 5).1 = STATUS_OK ∧
    (Power_SetMode (Power_SetMode Power_InitState POWER_MODE_DEEP_SLEEP 10).2.1
        POWER_MODE_ACTIVE (10 + 25)).2.1.time_sleep_ms =
      Power_InitState.time_sleep_ms + 25 :=
  ⟨(C2_set_mode_settles_accounting_before_switch.1 Power_InitState
      POWER_MODE_IDLE 5 (by decide) (by decide) (by decide) (by decide)
      (by decide) (by decide)).1,
    (C2_set_mode_settles_accounting_before_switch.2 Power_InitState 10 25
      (by decide) (by decide) (by decide) (by decide) (by decide)).1⟩

/-- Claim C10: `Power_SetMode(M)` on an initialized power manager already
in mode `M` returns `STATUS_OK`, leaves the entire state record unchanged
(no dwell settled, no energy accrued, `previous_mode`, `current_mode` and
the mode-entry timestamp untouched), and invokes no peripheral
power-state collaborator (empty invocation trace). -/
theorem C10_set_mode_same_mode_is_noop (s : PowerManagerState) (M : PowerMode)
    (now : Nat) (hinit : s.power_initialized = true)
    (hcur : s.current_mode = M) :
    Power_SetMode s M now = (STATUS_OK, s, []) := by
  unfold Power_SetMode
  simp [hinit, hcur]

/-- Witness for C10: instantiated at the freshly initialized power manager
(already in ACTIVE mode). -/
theorem C10_set_mode_same_mode_is_noop_witness :
    Power_SetMode Power_InitState POWER_MODE_ACTIVE 7 =
      (STATUS_OK, Power_InitState, []) :=
  C10_set_mode_same_mode_is_noop Power_InitState POWER_MODE_ACTIVE 7
    (by decide) (by decide)

/-! ## CRC engine (`Calculate_CRC16`, src/main.c lines 403-419)

`uint16_t` arithmetic is modelled as `Nat` with truncation `% 65536` at
every assignment that the C type truncates (the C shift itself happens in
`int` and cannot overflow). -/

/-- One iteration of the inner bit loop of `Calculate_CRC16`:
`if (crc & 0x8000) crc = (crc << 1) ^ 0x1021; else crc <<= 1;`. -/
def crcRound (crc : Nat) : Nat :=
  if crc &&& 32768 ≠ 0 then ((crc <<< 1) ^^^ 4129) % 65536
  else (crc <<< 1) % 65536

/-- `n` iterations of the inner bit loop. -/
def crcRounds : Nat → Nat → Nat
  | 0, crc => crc
  | n + 1, crc => crcRounds n (crcRound crc)

/-- One iteration of the outer byte loop of `Calculate_CRC16`:
`crc ^= (uint16_t)data[i] << 8;` followed by the eight bit rounds. -/
def crcByteStep (crc b : Nat) : Nat := crcRounds 8 (crc ^^^ (b <<< 8))

/-- `Calculate_CRC16` (src/main.c, lines 403-419): CRC over a byte list,
initial register 0xFFFF, no final XOR. -/
def Calculate_CRC16 (data : List Nat) : Nat := data.foldl crcByteStep 65535

/-- Modelled from the spec: one step of the reference CRC-16/CCITT-FALSE
shift register — "polynomial 0x1021, initial register 0xFFFF, MSB-first,
no final XOR".  The register shifts left one bit; if the bit shifted out
differs from the incoming message bit, the polynomial is XORed in. -/
def crcRefStep (crc : Nat) (b : Bool) : Nat :=
  if (crc.testBit 15).xor b then ((crc <<< 1) ^^^ 4129) % 65536
  else (crc <<< 1) % 65536

/-- The bits of a byte, most significant first. -/
def byteBitsMSB (b : Nat) : List Bool :=
  [b.testBit 7, b.testBit 6, b.testBit 5, b.testBit 4,
   b.testBit 3, b.testBit 2, b.testBit 1, b.testBit 0]

/-- Modelled from the spec: the reference CRC-16/CCITT-FALSE definition,
feeding every message bit MSB-first through the shift register from the
initial value 0xFFFF, with no final XOR. -/
def crc16_spec (data : List Nat) : Nat :=
  data.foldl (fun crc b => (byteBitsMSB b).foldl crcRefStep crc) 65535

theorem natShiftLeftXor (a b i : Nat) :
    (a ^^^ b) <<< i = (a <<< i) ^^^ (b <<< i) :=
  Nat.eq_of_testBit_eq (fun j => by
    simp [Nat.testBit_shiftLeft, Nat.testBit_xor, Bool.and_xor_distrib_left])

theorem xor_mod_two_pow_nat (a b n : Nat) :
    (a ^^^ b) % 2 ^ n = a % 2 ^ n ^^^ b % 2 ^ n :=
  Nat.eq_of_testBit_eq (fun j => by
    simp [Nat.testBit_mod_two_pow, Nat.testBit_xor, Bool.and_xor_distrib_left])

theorem xor_mod_65536 (a b : Nat) :
    (a ^^^ b) % 65536 = a % 65536 ^^^ b % 65536 := by
  have h := xor_mod_two_pow_nat a b 16
  norm_num at h
  exact h

theorem xor_perm_swap (x y z : Nat) : x ^^^ y ^^^ z = x ^^^ z ^^^ y :=
  Nat.eq_of_testBit_eq (fun i => by
    cases hx : x.testBit i <;> cases hy : y.testBit i <;> cases hz : z.testBit i <;>
      simp [Nat.testBit_xor, hx, hy, hz])

theorem xor_perm_pair (a b c d : Nat) :
    (a ^^^ b) ^^^ (c ^^^ d) = (a ^^^ c) ^^^ (b ^^^ d) :=
  Nat.eq_of_testBit_eq (fun i => by
    cases ha : a.testBit i <;> cases hb : b.testBit i <;> cases hc : c.testBit i <;>
      cases hd : d.testBit i <;> simp [Nat.testBit_xor, ha, hb, hc, hd])

theorem xor_lt_65536 (a b : Nat) (ha : a < 65536) (hb : b < 65536) :
    a ^^^ b < 65536 := by
  have h : (65536 : Nat) = 2 ^ 16 := rfl
  rw [h] at *
  exact Nat.xor_lt_two_pow ha hb

theorem crcRound_lt (c : Nat) : crcRound c < 65536 := by
  unfold crcRound
  split <;> exact Nat.mod_lt _ (by norm_num)

theorem crcRound_eq_testBit (c : Nat) :
    crcRound c = if c.testBit 15 then ((c <<< 1) ^^^ 4129) % 65536
      else (c <<< 1) % 65536 := by
  have h2 : c &&& 32768 = (c.testBit 15).toNat * 32768 := by
    have h := Nat.and_two_pow c 15
    norm_num at h
    exact h
  unfold crcRound
  rw [h2]
  cases htb : c.testBit 15 <;> simp

theorem crcRound_xor (a b : Nat) :
    crcRound (a ^^^ b) = crcRound a ^^^ crcRound b := by
  rw [crcRound_eq_testBit, crcRound_eq_testBit, crcRound_eq_testBit,
    Nat.testBit_xor]
  cases hA : a.testBit 15 <;> cases hB : b.testBit 15 <;>
    simp only [Bool.false_xor, Bool.xor_false, Bool.xor_true, Bool.not_true,
      Bool.not_false, Bool.false_eq_true, if_false, if_true]
  · -- neither top bit set
    rw [natShiftLeftXor, xor_mod_65536]
  · -- only b's top bit set
    rw [natShiftLeftXor, ← xor_mod_65536]
    congr 1
    rw [Nat.xor_assoc]
  · -- only a's top bit set
    rw [natShiftLeftXor, ← xor_mod_65536]
    congr 1
    exact xor_perm_swap (a <<< 1) (b <<< 1) 4129
  · -- both top bits set: the polynomial XORs cancel
    rw [natShiftLeftXor, ← xor_mod_65536]
    congr 1
    rw [xor_perm_pair, Nat.xor_self, Nat.xor_zero]

theorem crcRounds_xor (n : Nat) : ∀ a b : Nat,
    crcRounds n (a ^^^ b) = crcRounds n a ^^^ crcRounds n b := by
  induction n with
  | zero => intro a b; rfl
  | succ n ih =>
    intro a b
    show crcRounds n (crcRound (a ^^^ b)) = _
    rw [crcRound_xor, ih]
    rfl

theorem crcRounds_lt (n : Nat) : ∀ c : Nat, c < 65536 → crcRounds n c < 65536 := by
  induction n with
  | zero => intro c hc; exact hc
  | succ n ih => intro c _; exact ih (crcRound c) (crcRound_lt c)

theorem crcRound_zero : crcRound 0 = 0 := by decide

theorem crcRounds_zero (n : Nat) : crcRounds n 0 = 0 := by
  induction n with
  | zero => rfl
  | succ n ih =>
    show crcRounds n (crcRound 0) = 0
    rw [crcRound_zero]
    exact ih

theorem crcRound_ne_zero (c : Nat) (h1 : c < 65536) (h2 : c ≠ 0) :
    crcRound c ≠ 0 := by
  rw [crcRound_eq_testBit]
  by_cases hb : c.testBit 15
  · -- polynomial branch: the result is odd
    rw [if_pos hb]
    intro hz
    have ht0 : (((c <<< 1) ^^^ 4129) % 65536).testBit 0 = true := by
      have h65 : (65536 : Nat) = 2 ^ 16 := rfl
      rw [h65, Nat.testBit_mod_two_pow, Nat.testBit_xor]
      have hs : (c <<< 1).testBit 0 = false := by
        rw [Nat.shiftLeft_eq, Nat.testBit_to_div_mod]
        have h20 : c * 2 ^ 1 / 2 ^ 0 % 2 = 0 := by
          norm_num [Nat.mul_mod_left]
        rw [h20]
        rfl
      have hp : (4129 : Nat).testBit 0 = true := by decide
      rw [hs, hp]
      rfl
    rw [hz] at ht0
    simp [Nat.zero_testBit] at ht0
  · -- no top bit: the shift doubles a nonzero value below 2^15
    rw [if_neg hb]
    have hlt : c < 32768 := by
      by_contra hge
      apply hb
      rw [Nat.testBit_to_div_mod]
      have hdiv : c / 2 ^ 15 = 1 := by
        norm_num
        omega
      rw [hdiv]
      decide
    rw [Nat.shiftLeft_eq]
    have : c * 2 ^ 1 % 65536 = c * 2 := by
      norm_num
      omega
    rw [this]
    omega

theorem crcRounds_ne_zero (n : Nat) : ∀ c : Nat, c < 65536 → c ≠ 0 →
    crcRounds n c ≠ 0 := by
  induction n with
  | zero => intro c _ h2; exact h2
  | succ n ih =>
    intro c h1 h2
    exact ih (crcRound c) (crcRound_lt c) (crcRound_ne_zero c h1 h2)

theorem crcRefStep_lt (c : Nat) (b : Bool) : crcRefStep c b < 65536 := by
  unfold crcRefStep
  split <;> exact Nat.mod_lt _ (by norm_num)

theorem shiftLeft_mask_cancel (c : Nat) :
    ((c ^^^ 32768) <<< 1) % 65536 = (c <<< 1) % 65536 := by
  rw [natShiftLeftXor, xor_mod_65536]
  have h : ((32768 : Nat) <<< 1) % 65536 = 0 := by decide
  rw [h, Nat.xor_zero]

theorem crcRefStep_eq_round (c : Nat) (b : Bool) :
    crcRefStep c b = crcRound (c ^^^ (if b then 32768 else 0)) := by
  cases b
  · simp [crcRefStep, crcRound_eq_testBit]
  · have ht : (c ^^^ 32768).testBit 15 = !(c.testBit 15) := by
      rw [Nat.testBit_xor]
      have h15 : (32768 : Nat).testBit 15 = true := by decide
      rw [h15]
      cases c.testBit 15 <;> rfl
    rw [crcRound_eq_testBit]
    simp only [if_true]
    rw [ht]
    cases h15 : c.testBit 15
    · simp only [crcRefStep, h15, Bool.false_xor, if_true, Bool.not_false]
      symm
      rw [xor_mod_65536, shiftLeft_mask_cancel, ← xor_mod_65536]
    · simp only [crcRefStep, h15, Bool.true_xor, Bool.not_true,
        Bool.false_eq_true, if_false]
      exact (shiftLeft_mask_cancel c).symm

theorem crcRefStep_false (c : Nat) : crcRefStep c false = crcRound c := by
  rw [crcRefStep_eq_round]
  simp

theorem crcRefStep_xor (c1 c2 : Nat) (x y : Bool) :
    crcRefStep (c1 ^^^ c2) (x.xor y) = crcRefStep c1 x ^^^ crcRefStep c2 y := by
  rw [crcRefStep_eq_round, crcRefStep_eq_round, crcRefStep_eq_round]
  have hcond : (if x.xor y then (32768 : Nat) else 0) =
      (if x then (32768 : Nat) else 0) ^^^ (if y then (32768 : Nat) else 0) := by
    cases x <;> cases y <;> decide
  rw [hcond, xor_perm_pair, crcRound_xor]

theorem foldl_refStep_false (n : Nat) : ∀ c : Nat,
    (List.replicate n false).foldl crcRefStep c = crcRounds n c := by
  induction n with
  | zero => intro c; rfl
  | succ n ih =>
    intro c
    rw [List.replicate_succ, List.foldl_cons, crcRefStep_false]
    exact ih (crcRound c)

theorem foldl_refStep_xor : ∀ (l1 l2 : List Bool), l1.length = l2.length →
    ∀ c1 c2 : Nat,
    (List.zipWith Bool.xor l1 l2).foldl crcRefStep (c1 ^^^ c2) =
      l1.foldl crcRefStep c1 ^^^ l2.foldl crcRefStep c2 := by
  intro l1
  induction l1 with
  | nil =>
    intro l2 h c1 c2
    cases l2 with
    | nil => rfl
    | cons y l2 => simp at h
  | cons x l1 ih =>
    intro l2 h c1 c2
    cases l2 with
    | nil => simp at h
    | cons y l2 =>
      simp only [List.zipWith_cons_cons, List.foldl_cons]
      rw [crcRefStep_xor c1 c2 x y]
      exact ih l2 (by simpa using h) _ _

theorem crc_byte_base : ∀ b : Nat, b < 256 →
    crcRounds 8 (b <<< 8) = (byteBitsMSB b).foldl crcRefStep 0 := by decide

theorem zipWith_false_xor (l : List Bool) :
    List.zipWith Bool.xor (List.replicate l.length false) l = l := by
  induction l with
  | nil => rfl
  | cons x l ih => simp [List.replicate_succ, ih]

theorem crcByteStep_eq_bits (c b : Nat) (hb : b < 256) :
    crcByteStep c b = (byteBitsMSB b).foldl crcRefStep c := by
  unfold crcByteStep
  rw [crcRounds_xor 8 c (b <<< 8), crc_byte_base b hb]
  have hlen : (byteBitsMSB b).length = 8 := rfl
  have haff := foldl_refStep_xor (List.replicate 8 false) (byteBitsMSB b)
    (by rw [hlen]; rfl) c 0
  rw [Nat.xor_zero, foldl_refStep_false] at haff
  have hz : List.zipWith Bool.xor (List.replicate 8 false) (byteBitsMSB b) =
      byteBitsMSB b := by
    have := zipWith_false_xor (byteBitsMSB b)
    rwa [hlen] at this
  rw [hz] at haff
  exact haff.symm

theorem crc_fold_equiv : ∀ (data : List Nat), (∀ x ∈ data, x < 256) →
    ∀ c : Nat,
    data.foldl crcByteStep c =
      data.foldl (fun crc b => (byteBitsMSB b).foldl crcRefStep crc) c := by
  intro data
  induction data with
  | nil => intro _ c; rfl
  | cons b data ih =>
    intro hmem c
    simp only [List.foldl_cons]
    rw [crcByteStep_eq_bits c b (hmem b (by simp))]
    exact ih (fun x hx => hmem x (by simp [hx])) _

theorem crcByteStep_lt (c b : Nat) : crcByteStep c b < 65536 := by
  unfold crcByteStep
  show crcRounds 7 (crcRound (c ^^^ b <<< 8)) < 65536
  exact crcRounds_lt 7 _ (crcRound_lt _)

theorem crcByteStep_xor (c1 c2 x y : Nat) :
    crcByteStep (c1 ^^^ c2) (x ^^^ y) = crcByteStep c1 x ^^^ crcByteStep c2 y := by
  unfold crcByteStep
  rw [natShiftLeftXor, xor_perm_pair, crcRounds_xor]

theorem foldl_crcByteStep_xor : ∀ (xs ys : List Nat), xs.length = ys.length →
    ∀ c1 c2 : Nat,
    (List.zipWith (fun x y => x ^^^ y) xs ys).foldl crcByteStep (c1 ^^^ c2) =
      xs.foldl crcByteStep c1 ^^^ ys.foldl crcByteStep c2 := by
  intro xs
  induction xs with
  | nil =>
    intro ys h c1 c2
    cases ys with
    | nil => rfl
    | cons y ys => simp at h
  | cons x xs ih =>
    intro ys h c1 c2
    cases ys with
    | nil => simp at h
    | cons y ys =>
      simp only [List.zipWith_cons_cons, List.foldl_cons]
      rw [crcByteStep_xor c1 c2 x y]
      exact ih ys (by simpa using h) _ _

theorem crcByteStep_zero_zero : crcByteStep 0 0 = 0 := by decide

theorem foldl_zero_replicate (p : Nat) :
    (List.replicate p 0).foldl crcByteStep 0 = 0 := by
  induction p with
  | zero => rfl
  | succ p ih =>
    rw [List.replicate_succ, List.foldl_cons, crcByteStep_zero_zero]
    exact ih

theorem foldl_zeros_ne_zero (t : Nat) : ∀ s : Nat, s < 65536 → s ≠ 0 →
    (List.replicate t 0).foldl crcByteStep s ≠ 0 := by
  induction t with
  | zero => intro s _ h2; exact h2
  | succ t ih =>
    intro s h1 h2
    rw [List.replicate_succ, List.foldl_cons]
    have hstep : crcByteStep s 0 = crcRounds 8 s := by
      unfold crcByteStep
      norm_num
    rw [hstep]
    exact ih (crcRounds 8 s) (crcRounds_lt 8 s h1) (crcRounds_ne_zero 8 s h1 h2)

theorem zipWith_xor_zero_right (xs : List Nat) :
    List.zipWith (fun x y => x ^^^ y) xs (List.replicate xs.length 0) = xs := by
  induction xs with
  | nil => rfl
  | cons x xs ih => simp [List.replicate_succ, ih]

theorem zipWith_single_flip (pre suf : List Nat) (b e : Nat) :
    List.zipWith (fun x y => x ^^^ y) (pre ++ b :: suf)
      (List.replicate pre.length 0 ++ e :: List.replicate suf.length 0) =
      pre ++ (b ^^^ e) :: suf := by
  rw [List.zipWith_append _ _ _ _ _ (by simp)]
  rw [zipWith_xor_zero_right]
  simp [zipWith_xor_zero_right]

/-- Claim C6: `Calculate_CRC16` equals the CRC-16/CCITT-FALSE reference
definition — the MSB-first shift register with polynomial 0x1021, initial
register 0xFFFF and no final XOR, fed one message bit at a time
(`crc16_spec`, modelled from the spec's words) — it agrees with the
standard's check value `crc("123456789") = 0x29B1`, it is deterministic
(it is a pure function of the byte list, so this is inherent to the
model), and flipping any single bit of the covered input changes the
computed 16-bit code. -/
theorem C6_crc16_is_ccitt_false_and_detects_bit_flips :
    (∀ data : List Nat, (∀ x ∈ data, x < 256) →
      Calculate_CRC16 data = crc16_spec data) ∧
    Calculate_CRC16 [49, 50, 51, 52, 53, 54, 55, 56, 57] = 10673 ∧
    (∀ (pre : List Nat) (b : Nat) (suf : List Nat) (j : Nat), j < 8 →
      (∀ x ∈ pre ++ b :: suf, x < 256) →
      Calculate_CRC16 (pre ++ (b ^^^ (1 <<< j)) :: suf) ≠
        Calculate_CRC16 (pre ++ b :: suf)) := by
  refine ⟨?_, by decide, ?_⟩
  · intro data h
    exact crc_fold_equiv data h 65535
  · intro pre b suf j hj hmem
    have hej : (1 <<< j : Nat) = 2 ^ j := by
      rw [Nat.shiftLeft_eq, Nat.one_mul]
    have hflip := zipWith_single_flip pre suf b (1 <<< j)
    unfold Calculate_CRC16
    rw [← hflip]
    have haff := foldl_crcByteStep_xor (pre ++ b :: suf)
      (List.replicate pre.length 0 ++ (1 <<< j) :: List.replicate suf.length 0)
      (by simp) 65535 0
    rw [Nat.xor_zero] at haff
    rw [haff]
    have hsh : ((1 <<< j) <<< 8 : Nat) = 2 ^ (j + 8) := by
      rw [hej, Nat.shiftLeft_eq, ← Nat.pow_add]
    have hshlt : ((1 <<< j) <<< 8 : Nat) < 65536 := by
      rw [hsh]
      calc 2 ^ (j + 8) ≤ 2 ^ 15 := Nat.pow_le_pow_right (by norm_num) (by omega)
        _ < 65536 := by norm_num
    have hshne : ((1 <<< j) <<< 8 : Nat) ≠ 0 := by
      rw [hsh]
      exact Nat.pos_iff_ne_zero.mp (Nat.pos_pow_of_pos _ (by norm_num))
    have hstep : crcByteStep 0 (1 <<< j) = crcRounds 8 ((1 <<< j) <<< 8) := by
      unfold crcByteStep
      rw [Nat.zero_xor]
    have hy : (List.replicate pre.length 0 ++
        (1 <<< j) :: List.replicate suf.length 0).foldl crcByteStep 0 ≠ 0 := by
      rw [List.foldl_append, foldl_zero_replicate, List.foldl_cons, hstep]
      exact foldl_zeros_ne_zero suf.length _
        (crcRounds_lt 8 _ hshlt)
        (crcRounds_ne_zero 8 _ hshlt hshne)
    intro heq
    apply hy
    calc (List.replicate pre.length 0 ++
          (1 <<< j) :: List.replicate suf.length 0).foldl crcByteStep 0 =
        ((pre ++ b :: suf).foldl crcByteStep 65535 ^^^
          (pre ++ b :: suf).foldl crcByteStep 65535) ^^^
          (List.replicate pre.length 0 ++
            (1 <<< j) :: List.replicate suf.length 0).foldl crcByteStep 0 := by
          rw [Nat.xor_self, Nat.zero_xor]
      _ = (pre ++ b :: suf).foldl crcByteStep 65535 ^^^
          ((pre ++ b :: suf).foldl crcByteStep 65535 ^^^
            (List.replicate pre.length 0 ++
              (1 <<< j) :: List.replicate suf.length 0).foldl crcByteStep 0) := by
          rw [Nat.xor_assoc]
      _ = (pre ++ b :: suf).foldl crcByteStep 65535 ^^^
          (pre ++ b :: suf).foldl crcByteStep 65535 := by rw [heq]
      _ = 0 := Nat.xor_self _

/-- Witness for C6: the reference agreement instantiated at the one-byte
message `[18]`, and the bit-flip detection at flipping bit 0 of the
one-byte message `[128]`. -/
theorem C6_crc16_is_ccitt_false_and_detects_bit_flips_witness :
    Calculate_CRC16 [18] = crc16_spec [18] ∧
    Calculate_CRC16 ([] ++ (128 ^^^ (1 <<< 0)) :: []) ≠
      Calculate_CRC16 ([] ++ 128 :: []) :=
  ⟨C6_crc16_is_ccitt_false_and_detects_bit_flips.1 [18] (by decide),
    C6_crc16_is_ccitt_false_and_detects_bit_flips.2.2 [] 128 [] 0
      (by decide) (by decide)⟩

/-! ## GPS driver / NMEA parser (src/drivers/gps_driver.c)

Sentences are byte strings; they are modelled as `List Char` with
`Char.toNat` as the byte value (the C char is a byte, so universally
quantified theorems carry `c.toNat < 256` hypotheses where the byte
width matters).  `atof`/`atoi` are modelled exactly for the decimal
forms NMEA fields use (no exponent, hex-prefix or out-of-range forms,
which cannot occur in the sentences the theorems quantify over). -/

/-- `isspace` bytes recognized by `sscanf` before a `%x` conversion. -/
def isSpaceChar (c : Char) : Bool :=
  c.toNat == 32 || c.toNat == 9 || c.toNat == 10 || c.toNat == 11 ||
    c.toNat == 12 || c.toNat == 13

/-- `isdigit`. -/
def isDigitChar (c : Char) : Bool := 48 ≤ c.toNat && c.toNat ≤ 57

/-- Value of a decimal digit character. -/
def digitVal (c : Char) : Nat := c.toNat - 48

/-- Value of a hexadecimal digit character, when it is one. -/
def hexDigitVal (c : Char) : Option Nat :=
  if 48 ≤ c.toNat ∧ c.toNat ≤ 57 then some (c.toNat - 48)
  else if 65 ≤ c.toNat ∧ c.toNat ≤ 70 then some (c.toNat - 55)
  else if 97 ≤ c.toNat ∧ c.toNat ≤ 102 then some (c.toNat - 87)
  else none

/-- `sscanf(p, "%2hhx", &provided)` where `provided` was initialized to 0:
leading whitespace is skipped, at most two hex digits are converted, and
on a matching failure the variable keeps its prior value 0. -/
def sscanfHex2 (l : List Char) : Nat :=
  match l.dropWhile (fun c => isSpaceChar c) with
  | [] => 0
  | c1 :: rest =>
    match hexDigitVal c1 with
    | none => 0
    | some d1 =>
      match rest with
      | [] => d1
      | c2 :: _ =>
        match hexDigitVal c2 with
        | none => d1
        | some d2 => 16 * d1 + d2

/-- The XOR accumulation loop of `GPS_ValidateChecksum`: the accumulator
is a `uint8_t`, so every XOR is truncated to 8 bits. -/
def xorBytes (l : List Char) : Nat :=
  l.foldl (fun a c => (a ^^^ c.toNat) % 256) 0

/-- `GPS_ValidateChecksum` (gps_driver.c, lines 322-344): requires a
leading `$` and some `*`; XORs every byte strictly between them and
compares with the value `sscanf("%2hhx")` reads after the `*`. -/
def GPS_ValidateChecksum (s : List Char) : Bool :=
  match s with
  | [] => false
  | c0 :: rest =>
    if c0 ≠ '$' then false
    else if '*' ∈ rest then
      let body := rest.takeWhile (fun c => c ≠ '*')
      let after := (rest.dropWhile (fun c => c ≠ '*')).drop 1
      xorBytes body == sscanfHex2 after
    else false

/-- The digits-only value parser underlying `atoi`/`atof`. -/
def natDigitsVal (l : List Char) : Nat :=
  (l.takeWhile isDigitChar).foldl (fun a c => 10 * a + digitVal c) 0

/-- `atoi`, for in-range decimal inputs. -/
def atoiInt (l : List Char) : Int :=
  match l.dropWhile (fun c => isSpaceChar c) with
  | '-' :: rest => - (natDigitsVal rest : Int)
  | '+' :: rest => (natDigitsVal rest : Int)
  | l1 => (natDigitsVal l1 : Int)

/-- The unsigned part of `atof`: integer digits, optional fraction. -/
def atofPos (l : List Char) : ℚ :=
  let intVal := natDigitsVal l
  match l.dropWhile isDigitChar with
  | '.' :: fr =>
    let fp := fr.takeWhile isDigitChar
    let fracVal : Nat := fp.foldl (fun a c => 10 * a + digitVal c) 0
    (intVal : ℚ) + (fracVal : ℚ) / ((10 : ℚ) ^ fp.length)
  | _ => (intVal : ℚ)

/-- `atof`, for the decimal forms NMEA uses, as an exact rational. -/
def atofQ (l : List Char) : ℚ :=
  match l.dropWhile (fun c => isSpaceChar c) with
  | '-' :: rest => - atofPos rest
  | '+' :: rest => atofPos rest
  | l1 => atofPos l1

/-- The C cast `(int)q`: truncation toward zero. -/
def truncQ (q : ℚ) : Int := Int.tdiv q.num q.den

/-- The C cast of an `int` to `uint8_t`. -/
def toU8 (i : Int) : Nat := (i % 256).toNat

/-- The C cast of an `int` to `uint32_t`. -/
def toU32 (i : Int) : Nat := (i % 4294967296).toNat

/-- The C cast of a float to `uint16_t` (defined behavior only for
in-range nonnegative values, which is what reaches it here). -/
def toU16trunc (q : ℚ) : Nat := (truncQ q % 65536).toNat

/-- `GPS_ConvertCoordinate` (gps_driver.c, lines 346-367).  A missing
hemisphere letter reads the NUL terminator, which flips nothing. -/
def GPS_ConvertCoordinate (coord_str direction : List Char) : ℚ :=
  let coord := atofQ coord_str
  let degrees : Int := truncQ (coord / 100)
  let minutes : ℚ := coord - (degrees : ℚ) * 100
  let decimal_degrees := (degrees : ℚ) + minutes / 60
  if direction.headD (Char.ofNat 0) = 'S' ∨ direction.headD (Char.ofNat 0) = 'W'
  then - decimal_degrees else decimal_degrees

/-- `GPSData_t` from include/telemetry_types.h (floats as rationals). -/
structure GPSData where
  latitude : ℚ
  longitude : ℚ
  altitude : ℚ
  satellites : Nat
  fix_quality : Nat
  timestamp : Nat
  hdop : Nat
  valid : Bool
deriving DecidableEq

/-- The module-level parser state of gps_driver.c touched by parsing. -/
structure GPSGlobals where
  gps_has_fix : Bool
  current_gps_data : GPSData
  last_fix_timestamp : Nat
deriving DecidableEq

/-- The all-zero `GPSData` left by `GPS_Init`'s `memset`. -/
def gpsZero : GPSData :=
  { latitude := 0, longitude := 0, altitude := 0, satellites := 0,
    fix_quality := 0, timestamp := 0, hdop := 0, valid := false }

/-- The parser globals right after `GPS_Init`. -/
def globZero : GPSGlobals :=
  { gps_has_fix := false, current_gps_data := gpsZero, last_fix_timestamp := 0 }

/-- `strtok(sentence_copy, ",")` driven to exhaustion with the
`NMEA_MAX_TOKENS = 20` collection bound: maximal nonempty runs between
commas, first 20 kept. -/
def commaSplit : List Char → List (List Char)
  | [] => [[]]
  | c :: rest =>
    if c = ',' then [] :: commaSplit rest
    else
      match commaSplit rest with
      | [] => [[c]]
      | t :: ts => (c :: t) :: ts

/-- The token array collected by the tokenizer loops of
`GPS_ParseGPGGA`/`GPS_ParseGPRMC`. -/
def tokenList (s : List Char) : List (List Char) :=
  ((commaSplit s).filter (fun t => t ≠ [])).take 20

/-- `GPS_ParseGPGGA` (gps_driver.c, lines 218-274).  The `data_callback`
invocation is an external collaborator call and has no state effect
here; `last_fix_timestamp` is written with the source's placeholder zero.
Faithful to the C for sentences under the 127-byte `strncpy` bound. -/
def GPS_ParseGPGGA (sentence : List Char) (g : GPSData) (glob : GPSGlobals) :
    StatusCode × GPSData × GPSGlobals :=
  let toks := tokenList sentence
  if toks.length < 10 then (STATUS_ERROR, g, glob)
  else
    let g1 := { g with fix_quality := toU8 (atoiInt (toks.getD 6 [])) }
    if g1.fix_quality = 0 then
      (STATUS_OK, { g1 with valid := false }, { glob with gps_has_fix := false })
    else
      let g2 := { g1 with
        latitude := GPS_ConvertCoordinate (toks.getD 2 []) (toks.getD 3 [])
        longitude := GPS_ConvertCoordinate (toks.getD 4 []) (toks.getD 5 [])
        satellites := toU8 (atoiInt (toks.getD 7 []))
        altitude := atofQ (toks.getD 9 [])
        hdop := toU16trunc (atofQ (toks.getD 8 []) * 100)
        valid := true }
      (STATUS_OK, g2,
        { gps_has_fix := true, current_gps_data := g2, last_fix_timestamp := 0 })

/-- `GPS_ParseGPRMC` (gps_driver.c, lines 276-320). -/
def GPS_ParseGPRMC (sentence : List Char) (g : GPSData) (glob : GPSGlobals) :
    StatusCode × GPSData × GPSGlobals :=
  let toks := tokenList sentence
  if toks.length < 10 then (STATUS_ERROR, g, glob)
  else if (toks.getD 2 []).headD (Char.ofNat 0) ≠ 'A' then
    (STATUS_OK, { g with valid := false }, { glob with gps_has_fix := false })
  else
    let g2 := { g with
      latitude := GPS_ConvertCoordinate (toks.getD 3 []) (toks.getD 4 [])
      longitude := GPS_ConvertCoordinate (toks.getD 5 []) (toks.getD 6 [])
      timestamp := toU32 (atoiInt (toks.getD 1 []))
      valid := true }
    (STATUS_OK, g2,
      { gps_has_fix := true, current_gps_data := g2, last_fix_timestamp := 0 })

/-- `GPS_ParseNMEA` (gps_driver.c, lines 91-111): checksum validation,
then 6-character sentence-type dispatch; anything else is
`STATUS_ERROR`. -/
def GPS_ParseNMEA (sentence : List Char) (g : GPSData) (glob : GPSGlobals) :
    StatusCode × GPSData × GPSGlobals :=
  if GPS_ValidateChecksum sentence = false then (STATUS_ERROR, g, glob)
  else if sentence.take 6 = "$GPGGA".toList ∨ sentence.take 6 = "$GNGGA".toList
  then GPS_ParseGPGGA sentence g glob
  else if sentence.take 6 = "$GPRMC".toList ∨ sentence.take 6 = "$GNRMC".toList
  then GPS_ParseGPRMC sentence g glob
  else (STATUS_ERROR, g, glob)

theorem atofPos_nonneg (l : List Char) : 0 ≤ atofPos l := by
  unfold atofPos
  split <;> positivity

theorem atofQ_nonneg (l : List Char) (h : '-' ∉ l) : 0 ≤ atofQ l := by
  unfold atofQ
  split
  case h_1 rest heq =>
    exfalso
    apply h
    apply (List.dropWhile_sublist _).subset
    rw [heq]
    exact List.mem_cons_self _ _
  case h_2 => exact atofPos_nonneg _
  case h_3 => exact atofPos_nonneg _

theorem truncQ_eq_floor (q : ℚ) (h : 0 ≤ q) : truncQ q = ⌊q⌋ := by
  have hnum : 0 ≤ q.num := Rat.num_nonneg.mpr h
  have hfl : ⌊q⌋ = q.num / (q.den : Int) := by
    conv_lhs => rw [← Rat.num_div_den q]
    exact Rat.floor_intCast_div_natCast q.num q.den
  rw [hfl]
  unfold truncQ
  exact Int.tdiv_eq_ediv hnum (by positivity)

theorem convertCoordinate_formula (cs ds : List Char) (h : 0 ≤ atofQ cs) :
    GPS_ConvertCoordinate cs ds =
      (if ds.headD (Char.ofNat 0) = 'S' ∨ ds.headD (Char.ofNat 0) = 'W'
        then (-1 : ℚ) else 1) *
      ((⌊atofQ cs / 100⌋ : ℚ) +
        (atofQ cs - 100 * (⌊atofQ cs / 100⌋ : ℚ)) / 60) := by
  unfold GPS_ConvertCoordinate
  have h100 : 0 ≤ atofQ cs / 100 := by positivity
  simp only [truncQ_eq_floor _ h100]
  split
  · ring
  · ring

theorem atof_4807 : atofQ ['4', '8', '0', '7', '.', '0', '3', '8'] =
    4807038 / 1000 := by
  have hd : List.dropWhile (fun c => isSpaceChar c)
      ['4', '8', '0', '7', '.', '0', '3', '8'] =
      ['4', '8', '0', '7', '.', '0', '3', '8'] := by decide
  unfold atofQ
  rw [hd]
  show atofPos ['4', '8', '0', '7', '.', '0', '3', '8'] = _
  unfold atofPos
  have hdd : List.dropWhile isDigitChar ['4', '8', '0', '7', '.', '0', '3', '8'] =
      ['.', '0', '3', '8'] := by decide
  rw [hdd]
  show (natDigitsVal ['4', '8', '0', '7', '.', '0', '3', '8'] : ℚ) +
      ((List.foldl (fun a c => 10 * a + digitVal c) 0
        (List.takeWhile isDigitChar ['0', '3', '8']) : Nat) : ℚ) /
        ((10 : ℚ) ^ (List.takeWhile isDigitChar ['0', '3', '8']).length) = _
  have h2 : natDigitsVal ['4', '8', '0', '7', '.', '0', '3', '8'] = 4807 := by
    decide
  have h3 : List.takeWhile isDigitChar ['0', '3', '8'] = ['0', '3', '8'] := by
    decide
  have h4 : List.foldl (fun a c => 10 * a + digitVal c) 0 ['0', '3', '8'] = 38 := by
    decide
  rw [h2, h3, h4]
  norm_num

theorem atof_01131 : atofQ ['0', '1', '1', '3', '1', '.', '0', '0', '0'] =
    1131 := by
  have hd : List.dropWhile (fun c => isSpaceChar c)
      ['0', '1', '1', '3', '1', '.', '0', '0', '0'] =
      ['0', '1', '1', '3', '1', '.', '0', '0', '0'] := by decide
  unfold atofQ
  rw [hd]
  show atofPos ['0', '1', '1', '3', '1', '.', '0', '0', '0'] = _
  unfold atofPos
  have hdd : List.dropWhile isDigitChar
      ['0', '1', '1', '3', '1', '.', '0', '0', '0'] = ['.', '0', '0', '0'] := by
    decide
  rw [hdd]
  show (natDigitsVal ['0', '1', '1', '3', '1', '.', '0', '0', '0'] : ℚ) +
      ((List.foldl (fun a c => 10 * a + digitVal c) 0
        (List.takeWhile isDigitChar ['0', '0', '0']) : Nat) : ℚ) /
        ((10 : ℚ) ^ (List.takeWhile isDigitChar ['0', '0', '0']).length) = _
  have h2 : natDigitsVal ['0', '1', '1', '3', '1', '.', '0', '0', '0'] = 1131 := by
    decide
  have h3 : List.takeWhile isDigitChar ['0', '0', '0'] = ['0', '0', '0'] := by
    decide
  have h4 : List.foldl (fun a c => 10 * a + digitVal c) 0 ['0', '0', '0'] = 0 := by
    decide
  rw [h2, h3, h4]
  norm_num

/-- Claim C7: for every nonnegative NMEA coordinate string (`DDMM.MMMM`
or `DDDMM.MMMM` — any string `atof` reads as a nonnegative value, i.e.
without a leading minus), the conversion returns
`floor(v/100) + (v - 100·floor(v/100))/60`, negated exactly when the
hemisphere letter is `S` or `W`; in particular `4807.038,N` gives
`48.1173` (±10⁻³) and `01131.000,W` gives `-11.5167` (±10⁻³). -/
theorem C7_coordinate_conversion_formula :
    (∀ cs ds : List Char, '-' ∉ cs →
      GPS_ConvertCoordinate cs ds =
        (if ds.headD (Char.ofNat 0) = 'S' ∨ ds.headD (Char.ofNat 0) = 'W'
          then (-1 : ℚ) else 1) *
        ((⌊atofQ cs / 100⌋ : ℚ) +
          (atofQ cs - 100 * (⌊atofQ cs / 100⌋ : ℚ)) / 60)) ∧
    |GPS_ConvertCoordinate ['4', '8', '0', '7', '.', '0', '3', '8'] ['N'] -
      481173 / 10000| ≤ 1 / 1000 ∧
    |GPS_ConvertCoordinate ['0', '1', '1', '3', '1', '.', '0', '0', '0'] ['W'] +
      115167 / 10000| ≤ 1 / 1000 := by
  have hgen : ∀ cs ds : List Char, '-' ∉ cs →
      GPS_ConvertCoordinate cs ds =
        (if ds.headD (Char.ofNat 0) = 'S' ∨ ds.headD (Char.ofNat 0) = 'W'
          then (-1 : ℚ) else 1) *
        ((⌊atofQ cs / 100⌋ : ℚ) +
          (atofQ cs - 100 * (⌊atofQ cs / 100⌋ : ℚ)) / 60) :=
    fun cs ds h => convertCoordinate_formula cs ds (atofQ_nonneg cs h)
  refine ⟨hgen, ?_, ?_⟩
  · rw [hgen _ _ (by decide), atof_4807]
    have hn : ¬((['N'] : List Char).headD (Char.ofNat 0) = 'S' ∨
        (['N'] : List Char).headD (Char.ofNat 0) = 'W') := by decide
    rw [if_neg hn]
    have hfl : ⌊(4807038 / 1000 : ℚ) / 100⌋ = 48 := by
      norm_num
    rw [hfl]
    rw [abs_le]
    norm_num
  · rw [hgen _ _ (by decide), atof_01131]
    have hw : ((['W'] : List Char).headD (Char.ofNat 0) = 'S' ∨
        (['W'] : List Char).headD (Char.ofNat 0) = 'W') := by decide
    rw [if_pos hw]
    have hfl : ⌊(1131 : ℚ) / 100⌋ = 11 := by
      norm_num
    rw [hfl]
    rw [abs_le]
    norm_num

/-- Witness for C7: the general formula instantiated at `4807.038,N`. -/
theorem C7_coordinate_conversion_formula_witness :
    GPS_ConvertCoordinate ['4', '8', '0', '7', '.', '0', '3', '8'] ['N'] =
      (if (['N'] : List Char).headD (Char.ofNat 0) = 'S' ∨
          (['N'] : List Char).headD (Char.ofNat 0) = 'W'
        then (-1 : ℚ) else 1) *
      ((⌊atofQ ['4', '8', '0', '7', '.', '0', '3', '8'] / 100⌋ : ℚ) +
        (atofQ ['4', '8', '0', '7', '.', '0', '3', '8'] -
          100 * (⌊atofQ ['4', '8', '0', '7', '.', '0', '3', '8'] / 100⌋ : ℚ)) / 60) :=
  C7_coordinate_conversion_formula.1 ['4', '8', '0', '7', '.', '0', '3', '8']
    ['N'] (by decide)

theorem takeWhile_append_stop (p : Char → Bool) :
    ∀ (l1 : List Char) (x : Char) (l2 : List Char),
    (∀ c ∈ l1, p c = true) → p x = false →
    (l1 ++ x :: l2).takeWhile p = l1 ∧ (l1 ++ x :: l2).dropWhile p = x :: l2 := by
  intro l1
  induction l1 with
  | nil =>
    intro x l2 _ hx
    constructor
    · rw [List.nil_append, List.takeWhile_cons, hx]
      rfl
    · rw [List.nil_append, List.dropWhile_cons, hx]
      rfl
  | cons c l1 ih =>
    intro x l2 hall hx
    have hc : p c = true := hall c (List.mem_cons_self c l1)
    obtain ⟨ih1, ih2⟩ := ih x l2 (fun d hd => hall d (List.mem_cons_of_mem c hd)) hx
    constructor
    · rw [List.cons_append, List.takeWhile_cons, hc]
      simp [ih1]
    · rw [List.cons_append, List.dropWhile_cons, hc]
      simp [ih2]

theorem validate_structured (body tail : List Char) (hb : ∀ c ∈ body, c ≠ '*') :
    GPS_ValidateChecksum ('$' :: body ++ '*' :: tail) =
      (xorBytes body == sscanfHex2 tail) := by
  have hmem : '*' ∈ body ++ '*' :: tail := by simp
  have hbp : ∀ c ∈ body, (fun c => decide (c ≠ '*')) c = true := by
    intro c hc
    simp [hb c hc]
  have hsp : (fun c => decide (c ≠ '*')) '*' = false := by simp
  obtain ⟨ht, hd⟩ := takeWhile_append_stop _ body '*' tail hbp hsp
  show GPS_ValidateChecksum ('$' :: (body ++ '*' :: tail)) = _
  unfold GPS_ValidateChecksum
  simp only [hmem, if_pos, ht, hd]
  have hne : (('$' : Char) ≠ '$') = False := by simp
  simp [hne]

theorem xorBytes_plain (l : List Char) (h : ∀ c ∈ l, c.toNat < 256) :
    xorBytes l = l.foldl (fun a c => a ^^^ c.toNat) 0 := by
  unfold xorBytes
  suffices haux : ∀ a : Nat, a < 256 →
      l.foldl (fun a c => (a ^^^ c.toNat) % 256) a =
        l.foldl (fun a c => a ^^^ c.toNat) a from haux 0 (by norm_num)
  induction l with
  | nil => intro a _; rfl
  | cons c l ih =>
    intro a ha
    have hc : c.toNat < 256 := h c (List.mem_cons_self c l)
    have hx : a ^^^ c.toNat < 256 := by
      have h256 : (256 : Nat) = 2 ^ 8 := rfl
      rw [h256] at *
      exact Nat.xor_lt_two_pow ha hc
    simp only [List.foldl_cons, Nat.mod_eq_of_lt hx]
    exact ih (fun d hd => h d (List.mem_cons_of_mem c hd)) (a ^^^ c.toNat) hx

theorem foldl_xor_shift (l : List Char) : ∀ a : Nat,
    l.foldl (fun x c => x ^^^ c.toNat) a =
      a ^^^ l.foldl (fun x c => x ^^^ c.toNat) 0 := by
  induction l with
  | nil => intro a; exact (Nat.xor_zero a).symm
  | cons c l ih =>
    intro a
    simp only [List.foldl_cons]
    rw [ih (a ^^^ c.toNat), ih (0 ^^^ c.toNat), Nat.zero_xor, Nat.xor_assoc]

theorem xor_right_cancel (a b s : Nat) (h : a ^^^ s = b ^^^ s) : a = b := by
  have h2 := congrArg (fun z => z ^^^ s) h
  simpa [Nat.xor_assoc, Nat.xor_self, Nat.xor_zero] using h2

theorem xor_left_cancel (a b s : Nat) (h : s ^^^ a = s ^^^ b) : a = b := by
  have h2 := congrArg (fun z => s ^^^ z) h
  simpa [← Nat.xor_assoc, Nat.xor_self, Nat.zero_xor] using h2

theorem xorBytes_alter (pre suf : List Char) (c c' : Char)
    (hall : ∀ x ∈ pre ++ c :: suf, x.toNat < 256) (hc' : c'.toNat < 256)
    (hne : c.toNat ≠ c'.toNat) :
    xorBytes (pre ++ c' :: suf) ≠ xorBytes (pre ++ c :: suf) := by
  have hpre : ∀ x ∈ pre, x.toNat < 256 := by
    intro x hx
    exact hall x (List.mem_append_left _ hx)
  have hsuf : ∀ x ∈ suf, x.toNat < 256 := by
    intro x hx
    exact hall x (List.mem_append_right _ (List.mem_cons_of_mem c hx))
  have hc : c.toNat < 256 := hall c (List.mem_append_right _ (List.mem_cons_self c suf))
  have hall' : ∀ x ∈ pre ++ c' :: suf, x.toNat < 256 := by
    intro x hx
    rcases List.mem_append.mp hx with hx | hx
    · exact hpre x hx
    · rcases List.mem_cons.mp hx with hx | hx
      · rw [hx]; exact hc'
      · exact hsuf x hx
  rw [xorBytes_plain _ hall, xorBytes_plain _ hall']
  rw [List.foldl_append, List.foldl_append, List.foldl_cons, List.foldl_cons]
  rw [foldl_xor_shift suf
      (List.foldl (fun a c => a ^^^ c.toNat) 0 pre ^^^ c'.toNat),
    foldl_xor_shift suf
      (List.foldl (fun a c => a ^^^ c.toNat) 0 pre ^^^ c.toNat)]
  intro heq
  apply hne
  have hswap := xor_right_cancel _ _ _ heq
  exact (xor_left_cancel _ _ _ hswap).symm

theorem hex_ge_48 (c : Char) (v : Nat) (h : hexDigitVal c = some v) :
    48 ≤ c.toNat := by
  unfold hexDigitVal at h
  split at h
  · omega
  · split at h
    · omega
    · split at h
      · omega
      · simp at h

theorem hex_not_space (c : Char) (v : Nat) (h : hexDigitVal c = some v) :
    isSpaceChar c = false := by
  have h48 := hex_ge_48 c v h
  unfold isSpaceChar
  simp only [Bool.or_eq_false_iff, beq_eq_false_iff_ne]
  omega

theorem sscanfHex2_two_digits (h1 h2 : Char) (v1 v2 : Nat) (tail : List Char)
    (e1 : hexDigitVal h1 = some v1) (e2 : hexDigitVal h2 = some v2) :
    sscanfHex2 (h1 :: h2 :: tail) = 16 * v1 + v2 := by
  unfold sscanfHex2
  rw [List.dropWhile_cons, hex_not_space h1 v1 e1]
  simp only [Bool.false_eq_true, if_false, e1, e2]

theorem validate_two_hex (body tail : List Char) (h1 h2 : Char) (v1 v2 : Nat)
    (e1 : hexDigitVal h1 = some v1) (e2 : hexDigitVal h2 = some v2)
    (hb : ∀ c ∈ body, c ≠ '*') :
    (GPS_ValidateChecksum ('$' :: body ++ '*' :: h1 :: h2 :: tail) = true ↔
      xorBytes body = 16 * v1 + v2) := by
  rw [validate_structured body (h1 :: h2 :: tail) hb,
    sscanfHex2_two_digits h1 h2 v1 v2 tail e1 e2]
  exact beq_iff_eq

/-- A GPGGA sentence that ends in a bare `*` with no checksum digits at
all, whose body XORs to 0: `$GPGGA,1G,2,N,3,E,0,7,8,9*`. -/
def nmeaEnvelopeCex : List Char := "$GPGGA,1G,2,N,3,E,0,7,8,9*".toList

/-- Counterexample to claim C4 as stated: this sentence lacks the
`$...*HH` envelope (its final character is the `*`; there are no trailing
hex digits), yet `GPS_ValidateChecksum` accepts it — the failed
`sscanf("%2hhx")` leaves the provided checksum at its initial 0, and the
body XORs to 0 — and `GPS_ParseNMEA` returns `STATUS_OK`, not an error. -/
theorem C4_envelope_not_required_counterexample :
    nmeaEnvelopeCex.getLast? = some '*' ∧
    GPS_ValidateChecksum nmeaEnvelopeCex = true ∧
    (GPS_ParseNMEA nmeaEnvelopeCex gpsZero globZero).1 = STATUS_OK := by
  decide

/-- Claim C4 [amended]: the checksum validator requires only a leading
`$` and the presence of some `*` — not two trailing hex digits.  What
holds: (1) any sentence failing validation is rejected by the parser
with `STATUS_ERROR`; (2) validation succeeds only with a leading `$` and
a `*` present; (3) for a sentence whose `*` is followed by two hex
digits, validation succeeds iff the XOR of the bytes strictly between
`$` and `*` (computed in 8 bits) equals the two-digit hex value; hence
(4) altering that hex digit pair to one of a different value is always
rejected, and (5) altering any single interior byte (to a different
byte value that is not `*`) without recomputing the checksum is always
rejected. -/
theorem C4_checksum_validation_amended :
    (∀ (s : List Char) (g : GPSData) (glob : GPSGlobals),
      GPS_ValidateChecksum s = false →
      (GPS_ParseNMEA s g glob).1 = STATUS_ERROR) ∧
    (∀ s : List Char, GPS_ValidateChecksum s = true →
      s.head? = some '$' ∧ '*' ∈ s) ∧
    (∀ (body tail : List Char) (h1 h2 : Char) (v1 v2 : Nat),
      hexDigitVal h1 = some v1 → hexDigitVal h2 = some v2 →
      (∀ c ∈ body, c ≠ '*') →
      (GPS_ValidateChecksum ('$' :: body ++ '*' :: h1 :: h2 :: tail) = true ↔
        xorBytes body = 16 * v1 + v2)) ∧
    (∀ (body tail : List Char) (h1 h2 h1' h2' : Char) (v1 v2 v1' v2' : Nat),
      hexDigitVal h1 = some v1 → hexDigitVal h2 = some v2 →
      hexDigitVal h1' = some v1' → hexDigitVal h2' = some v2' →
      (∀ c ∈ body, c ≠ '*') →
      16 * v1' + v2' ≠ 16 * v1 + v2 →
      GPS_ValidateChecksum ('$' :: body ++ '*' :: h1 :: h2 :: tail) = true →
      GPS_ValidateChecksum ('$' :: body ++ '*' :: h1' :: h2' :: tail) = false) ∧
    (∀ (pre suf tail : List Char) (c c' h1 h2 : Char) (v1 v2 : Nat),
      hexDigitVal h1 = some v1 → hexDigitVal h2 = some v2 →
      (∀ x ∈ pre ++ c :: suf, x ≠ '*') → c' ≠ '*' →
      (∀ x ∈ pre ++ c :: suf, x.toNat < 256) → c'.toNat < 256 →
      c.toNat ≠ c'.toNat →
      GPS_ValidateChecksum ('$' :: (pre ++ c :: suf) ++ '*' :: h1 :: h2 :: tail) =
        true →
      GPS_ValidateChecksum ('$' :: (pre ++ c' :: suf) ++ '*' :: h1 :: h2 :: tail) =
        false) := by
  refine ⟨?_, ?_, ?_, ?_, ?_⟩
  · intro s g glob h
    simp [GPS_ParseNMEA, h]
  · intro s hval
    match s with
    | [] => simp [GPS_ValidateChecksum] at hval
    | c0 :: rest =>
      simp only [GPS_ValidateChecksum] at hval
      split at hval
      · exact absurd hval (by simp)
      · rename_i hc0
        push_neg at hc0
        subst hc0
        split at hval
        · rename_i hm
          exact ⟨rfl, List.mem_cons_of_mem _ hm⟩
        · exact absurd hval (by simp)
  · intro body tail h1 h2 v1 v2 e1 e2 hb
    exact validate_two_hex body tail h1 h2 v1 v2 e1 e2 hb
  · intro body tail h1 h2 h1' h2' v1 v2 v1' v2' e1 e2 e1' e2' hb hne htrue
    have hx : xorBytes body = 16 * v1 + v2 :=
      (validate_two_hex body tail h1 h2 v1 v2 e1 e2 hb).mp htrue
    cases hv : GPS_ValidateChecksum ('$' :: body ++ '*' :: h1' :: h2' :: tail) with
    | false => rfl
    | true =>
      have hx' : xorBytes body = 16 * v1' + v2' :=
        (validate_two_hex body tail h1' h2' v1' v2' e1' e2' hb).mp hv
      omega
  · intro pre suf tail c c' h1 h2 v1 v2 e1 e2 hstar hc'star hbytes hc'byte hne htrue
    have hx : xorBytes (pre ++ c :: suf) = 16 * v1 + v2 :=
      (validate_two_hex (pre ++ c :: suf) tail h1 h2 v1 v2 e1 e2 hstar).mp htrue
    have hstar' : ∀ x ∈ pre ++ c' :: suf, x ≠ '*' := by
      intro x hxm
      rcases List.mem_append.mp hxm with hxm | hxm
      · exact hstar x (List.mem_append_left _ hxm)
      · rcases List.mem_cons.mp hxm with hxm | hxm
        · rw [hxm]; exact hc'star
        · exact hstar x (List.mem_append_right _ (List.mem_cons_of_mem c hxm))
    cases hv : GPS_ValidateChecksum ('$' :: (pre ++ c' :: suf) ++ '*' ::
        h1 :: h2 :: tail) with
    | false => rfl
    | true =>
      have hx' : xorBytes (pre ++ c' :: suf) = 16 * v1 + v2 :=
        (validate_two_hex (pre ++ c' :: suf) tail h1 h2 v1 v2 e1 e2 hstar').mp hv
      have halter := xorBytes_alter pre suf c c' hbytes hc'byte hne
      rw [hx, hx'] at halter
      exact absurd rfl halter

/-- Witness for C4 (amended): a sentence failing the checksum is parsed
as `STATUS_ERROR`, and for the classic `$GPGGA` body the two-hex-digit
equivalence instantiates at digits `5` and `6`. -/
theorem C4_checksum_validation_amended_witness :
    (GPS_ParseNMEA ("$GPGGA*00".toList) gpsZero globZero).1 = STATUS_ERROR ∧
    (GPS_ValidateChecksum ('$' :: "GPGGA".toList ++ '*' :: '5' :: '6' :: []) =
        true ↔
      xorBytes ("GPGGA".toList) = 16 * 5 + 6) :=
  ⟨C4_checksum_validation_amended.1 ("$GPGGA*00".toList) gpsZero globZero
      (by decide),
    C4_checksum_validation_amended.2.2.1 ("GPGGA".toList) [] '5' '6' 5 6
      (by decide) (by decide) (by decide)⟩

/-- An unsupported sentence type with a correct checksum. -/
def unsupportedSentence : List Char := "$GPXXX*4F".toList

/-- A supported sentence type with a wrong checksum. -/
def badChecksumSentence : List Char := "$GPGGA*00".toList

/-- Counterexample to claim C5 as stated: an unsupported sentence type
(with a valid checksum) and a checksum failure both return the same
`STATUS_ERROR` code — the two rejections are *not* distinguishable from
one another through the parser's result. -/
theorem C5_rejections_not_distinguishable_counterexample :
    GPS_ValidateChecksum unsupportedSentence = true ∧
    GPS_ValidateChecksum badChecksumSentence = false ∧
    (GPS_ParseNMEA unsupportedSentence gpsZero globZero).1 = STATUS_ERROR ∧
    (GPS_ParseNMEA badChecksumSentence gpsZero globZero).1 = STATUS_ERROR ∧
    (GPS_ParseNMEA unsupportedSentence gpsZero globZero).1 =
      (GPS_ParseNMEA badChecksumSentence gpsZero globZero).1 := by
  decide

/-- Claim C5 [amended]: a checksum-valid position-fix (GGA) sentence with
enough fields and fix-quality 0 returns `STATUS_OK` with `valid = false`
and no coordinates parsed (only the `fix_quality` field of the output
record is written), and a checksum-valid recommended-minimum (RMC)
sentence with enough fields whose status field does not start with `A`
likewise returns `STATUS_OK` with `valid = false` and nothing else
written — both distinguishable from the rejections; but an unsupported
sentence type and a checksum failure both return the single code
`STATUS_ERROR` and are not distinguishable from one another. -/
theorem C5_result_code_discrimination_amended :
    (∀ (s : List Char) (g : GPSData) (glob : GPSGlobals),
      GPS_ValidateChecksum s = false →
      (GPS_ParseNMEA s g glob).1 = STATUS_ERROR) ∧
    (∀ (s : List Char) (g : GPSData) (glob : GPSGlobals),
      GPS_ValidateChecksum s = true →
      ¬ s.take 6 = "$GPGGA".toList → ¬ s.take 6 = "$GNGGA".toList →
      ¬ s.take 6 = "$GPRMC".toList → ¬ s.take 6 = "$GNRMC".toList →
      (GPS_ParseNMEA s g glob).1 = STATUS_ERROR) ∧
    (∀ (s : List Char) (g : GPSData) (glob : GPSGlobals),
      GPS_ValidateChecksum s = true →
      (s.take 6 = "$GPGGA".toList ∨ s.take 6 = "$GNGGA".toList) →
      10 ≤ (tokenList s).length →
      toU8 (atoiInt ((tokenList s).getD 6 [])) = 0 →
      GPS_ParseNMEA s g glob =
        (STATUS_OK, { g with fix_quality := 0, valid := false },
          { glob with gps_has_fix := false })) ∧
    (∀ (s : List Char) (g : GPSData) (glob : GPSGlobals),
      GPS_ValidateChecksum s = true →
      (s.take 6 = "$GPRMC".toList ∨ s.take 6 = "$GNRMC".toList) →
      10 ≤ (tokenList s).length →
      ((tokenList s).getD 2 []).headD (Char.ofNat 0) ≠ 'A' →
      GPS_ParseNMEA s g glob =
        (STATUS_OK, { g with valid := false },
          { glob with gps_has_fix := false })) := by
  refine ⟨?_, ?_, ?_, ?_⟩
  · intro s g glob h
    simp [GPS_ParseNMEA, h]
  · intro s g glob hval h1 h2 h3 h4
    unfold GPS_ParseNMEA
    rw [hval]
    rw [if_neg (by simp), if_neg (not_or.mpr ⟨h1, h2⟩),
      if_neg (not_or.mpr ⟨h3, h4⟩)]
  · intro s g glob hval hpre hlen hq
    unfold GPS_ParseNMEA
    rw [hval]
    rw [if_neg (by simp), if_pos hpre]
    unfold GPS_ParseGPGGA
    rw [if_neg (by omega)]
    dsimp only
    rw [hq]
    rw [if_pos rfl]
  · intro s g glob hval hpre hlen hA
    have hnogga : ¬ (s.take 6 = "$GPGGA".toList ∨ s.take 6 = "$GNGGA".toList) := by
      rcases hpre with h | h <;> rw [h] <;> decide
    unfold GPS_ParseNMEA
    rw [hval]
    rw [if_neg (by simp), if_neg hnogga, if_pos hpre]
    unfold GPS_ParseGPRMC
    rw [if_neg (by omega)]
    dsimp only
    rw [if_pos hA]

/-- A checksum-valid GGA sentence with 10 fields and fix-quality 0. -/
def noFixSentence : List Char := "$GPGGA,1,2,N,3,E,0,7,8,9*47".toList

/-- A checksum-valid RMC sentence with 12 fields and status `V`. -/
def noFixRMCSentence : List Char :=
  "$GPRMC,123519,V,4807.038,N,01131.000,E,022.4,084.4,230394,003.1,W*7D".toList

/-- Witness for C5 (amended): the unsupported-type rejection instantiated
at `$GPXXX*4F`, the quality-0 no-fix success instantiated at a concrete
valid GGA sentence, and the status-`V` no-fix success instantiated at a
concrete valid RMC sentence. -/
theorem C5_result_code_discrimination_amended_witness :
    (GPS_ParseNMEA unsupportedSentence gpsZero globZero).1 = STATUS_ERROR ∧
    GPS_ParseNMEA noFixSentence gpsZero globZero =
      (STATUS_OK, { gpsZero with fix_quality := 0, valid := false },
        { globZero with gps_has_fix := false }) ∧
    GPS_ParseNMEA noFixRMCSentence gpsZero globZero =
      (STATUS_OK, { gpsZero with valid := false },
        { globZero with gps_has_fix := false }) :=
  ⟨C5_result_code_discrimination_amended.2.1 unsupportedSentence gpsZero
      globZero (by decide) (by decide) (by decide) (by decide) (by decide),
    C5_result_code_discrimination_amended.2.2.1 noFixSentence gpsZero globZero
      (by decide) (by decide) (by decide) (by decide),
    C5_result_code_discrimination_amended.2.2.2 noFixRMCSentence gpsZero
      globZero (by decide) (by decide) (by decide) (by decide)⟩

end Telematics
